import Mathlib

/-!
# PN532 host driver: frame codec and transaction guard

A shallow embedding of `src/src/pn532.cpp` and `src/src/transaction.cpp`.

* Bytes (`uint8_t`) are natural numbers below 256; every place where the C++ code
  truncates to eight bits carries an explicit `% 256`.
* The abstract class `Transport` becomes a record of state-passing functions over a
  device state `σ`.  Every call of a transport method is appended to a trace, so that
  statements about which bus calls were made can be expressed.
* `Transaction` is the guard of `transaction.hpp` with its three private fields.
-/

namespace pn532

set_option maxRecDepth 100000

/-! ## Data model -/

/-- Result codes of `transaction.hpp`, in declaration order. -/
inductive Status where
  | SUCCESS
  | TIMEOUT
  | INVALID_FRAME
  | INVALID_TFI
  | NO_SPACE
  | ERROR_FRAME
  | CHECKSUM_ERROR
  | TRANSPORT_ERROR
  | INVALID_TARGET
  | NO_TAGS_FOUND
  deriving DecidableEq, Repr

/-- One call of a virtual method of `Transport`, as recorded in the trace. -/
inductive Call where
  | swReset
  | abort
  | begin
  | writeChunk (data : List Nat)
  | waitReady (timeout_ms : Nat)
  | prepareRead
  | readChunk (size : Nat)
  | endTransaction
  deriving DecidableEq, Repr

/-- The abstract class `Transport`: each virtual method is a function of the device
state.  `begin` reports whether the guard it returns is valid; `readChunk` receives the
size of the span it has to fill and returns the bytes it stored. -/
structure Transport (σ : Type) where
  swReset : σ → σ
  abort : σ → σ
  begin : σ → Bool × σ
  writeChunk : List Nat → σ → Status × σ
  waitReady : Nat → σ → Bool × σ
  prepareRead : σ → Status × σ
  readChunk : Nat → σ → Status × List Nat × σ
  endTransaction : σ → σ

/-- The device state together with the trace of transport calls made so far. -/
structure World (σ : Type) where
  dev : σ
  trace : List Call

/-- The guard `Transaction`: `transport` is the pointer (`none` is `nullptr`). -/
structure Transaction where
  transport : Option Nat
  valid : Bool
  in_read_mode : Bool
  deriving DecidableEq, Repr

def PN532_PREAMBLE : Nat := 0x00
def PN532_STARTCODE1 : Nat := 0x00
def PN532_STARTCODE2 : Nat := 0xFF
def PN532_POSTAMBLE : Nat := 0x00
def PN532_HOSTTOPN532 : Nat := 0xD4
def PN532_PN532TOHOST : Nat := 0xD5

def PN532_COMMAND_GETFIRMWAREVERSION : Nat := 0x02
def PN532_COMMAND_SAMCONFIGURATION : Nat := 0x14
def PN532_COMMAND_INLISTPASSIVETARGET : Nat := 0x4A
def PN532_COMMAND_RFCONFIGURATION : Nat := 0x32
def PN532_COMMAND_INRELEASE : Nat := 0x52
def PN532_COMMAND_INSELECT : Nat := 0x54
def PN532_COMMAND_GETGENERALSTATUS : Nat := 0x04
def PN532_COMMAND_POWERDOWN : Nat := 0x16
def PN532_COMMAND_INDATAEXCHANGE : Nat := 0x40
def PN532_COMMAND_INCOMMUNICATETHRU : Nat := 0x42
def PN532_COMMAND_READREGISTER : Nat := 0x06
def PN532_COMMAND_WRITEREGISTER : Nat := 0x08

/-- The expression `~x + 1` stored into a `uint8_t`. -/
def negByte (x : Nat) : Nat := ((255 - x % 256) + 1) % 256

/-- The contents of a span of `n` bytes after the transport stored `out` into it:
exactly `n` bytes, each reduced to eight bits. -/
def fill (n : Nat) (out : List Nat) : List Nat :=
  (List.range n).map (fun i => out.getD i 0 % 256)

/-! ## Transport calls, with tracing -/

section Calls
variable {σ : Type}

def callBegin (tp : Transport σ) (w : World σ) : Transaction × World σ :=
  let r := tp.begin w.dev
  ({ transport := some 0, valid := r.1, in_read_mode := false },
   { dev := r.2, trace := w.trace ++ [Call.begin] })

def callWriteChunk (tp : Transport σ) (data : List Nat) (w : World σ) : Status × World σ :=
  let r := tp.writeChunk data w.dev
  (r.1, { dev := r.2, trace := w.trace ++ [Call.writeChunk data] })

def callWaitReady (tp : Transport σ) (timeout_ms : Nat) (w : World σ) : Bool × World σ :=
  let r := tp.waitReady timeout_ms w.dev
  (r.1, { dev := r.2, trace := w.trace ++ [Call.waitReady timeout_ms] })

def callPrepareRead (tp : Transport σ) (w : World σ) : Status × World σ :=
  let r := tp.prepareRead w.dev
  (r.1, { dev := r.2, trace := w.trace ++ [Call.prepareRead] })

def callReadChunk (tp : Transport σ) (n : Nat) (w : World σ) :
    Status × List Nat × World σ :=
  let r := tp.readChunk n w.dev
  (r.1, fill n r.2.1, { dev := r.2.2, trace := w.trace ++ [Call.readChunk n] })

def callEndTransaction (tp : Transport σ) (w : World σ) : World σ :=
  { dev := tp.endTransaction w.dev, trace := w.trace ++ [Call.endTransaction] }

def callSwReset (tp : Transport σ) (w : World σ) : World σ :=
  { dev := tp.swReset w.dev, trace := w.trace ++ [Call.swReset] }

/-! ## `transaction.cpp` -/

/-- The destructor `Transaction::~Transaction`. -/
def Transaction.destroy (tp : Transport σ) (txn : Transaction) (w : World σ) : World σ :=
  if txn.valid && txn.transport.isSome then callEndTransaction tp w else w

/-- The method `Transaction::write`. -/
def Transaction.write (tp : Transport σ) (txn : Transaction) (data : List Nat)
    (w : World σ) : Status × World σ :=
  if !txn.valid || txn.transport.isNone then (Status.TRANSPORT_ERROR, w)
  else callWriteChunk tp data w

def EXPECTED_ACK : List Nat := [0x00, 0x00, 0xFF, 0x00, 0xFF, 0x00]

/-- The comparison loop of `waitForAck`: some index below 6 holds a byte other than the
expected one. -/
def ackMismatch (ack_buf : List Nat) : Bool :=
  (List.range 6).any (fun i => ack_buf.getD i 0 != EXPECTED_ACK.getD i 0)

/-- The method `Transaction::waitForAck`. -/
def Transaction.waitForAck (tp : Transport σ) (txn : Transaction) (timeout_ms : Nat)
    (w : World σ) : Status × Transaction × World σ :=
  if !txn.valid || txn.transport.isNone then (Status.TRANSPORT_ERROR, txn, w)
  else
    let w1 := callEndTransaction tp w
    let r := callWaitReady tp timeout_ms w1
    if !r.1 then (Status.TIMEOUT, { txn with valid := false }, r.2)
    else
      let p := callPrepareRead tp r.2
      if p.1 ≠ Status.SUCCESS then (p.1, { txn with valid := false }, p.2)
      else
        let c := callReadChunk tp 6 p.2
        let w5 := callEndTransaction tp c.2.2
        if c.1 ≠ Status.SUCCESS then (c.1, { txn with valid := false }, w5)
        else if ackMismatch c.2.1 then
          (Status.INVALID_FRAME, { txn with valid := false }, w5)
        else (Status.SUCCESS, txn, w5)

/-- The method `Transaction::waitForResponse`. -/
def Transaction.waitForResponse (tp : Transport σ) (txn : Transaction) (timeout_ms : Nat)
    (w : World σ) : Status × Transaction × World σ :=
  if !txn.valid || txn.transport.isNone then (Status.TRANSPORT_ERROR, txn, w)
  else
    let r := callWaitReady tp timeout_ms w
    if !r.1 then (Status.TIMEOUT, { txn with valid := false }, r.2)
    else
      let p := callPrepareRead tp r.2
      if p.1 ≠ Status.SUCCESS then (p.1, { txn with valid := false }, p.2)
      else (Status.SUCCESS, { txn with in_read_mode := true }, p.2)

/-- The method `Transaction::read` on a span of `n` bytes.  The bytes returned with a
status other than `SUCCESS` are never looked at by the callers. -/
def Transaction.read (tp : Transport σ) (txn : Transaction) (n : Nat) (w : World σ) :
    Status × List Nat × World σ :=
  if !txn.valid || txn.transport.isNone then (Status.TRANSPORT_ERROR, List.replicate n 0, w)
  else if !txn.in_read_mode then (Status.TRANSPORT_ERROR, List.replicate n 0, w)
  else callReadChunk tp n w

end Calls

/-! ## `pn532.cpp`: frame encode -/

/-- The byte `uint8_t cmd_len = cmd.size() + 1` of `transceive`. -/
def cmdLen (cmd : List Nat) : Nat := (cmd.length + 1) % 256

/-- The running sum `uint8_t sum` of `transceive` after the loop over `cmd`. -/
def runningSum (init : Nat) (cmd : List Nat) : Nat :=
  cmd.foldl (fun sum b => (sum + b) % 256) init

/-- The vector `packet` that `transceive` builds before it opens the transaction. -/
def buildPacket (cmd : List Nat) : List Nat :=
  [PN532_PREAMBLE, PN532_STARTCODE1, PN532_STARTCODE2]
    ++ [cmdLen cmd, negByte (cmdLen cmd)]
    ++ [PN532_HOSTTOPN532]
    ++ cmd
    ++ [negByte (runningSum PN532_HOSTTOPN532 cmd), PN532_POSTAMBLE]

/-! ## `pn532.cpp`: frame decode -/

/-- Outcome of the resynchronisation loop of `parseResponse`. -/
inductive Scan where
  | found
  | missing
  | failed (st : Status)
  deriving DecidableEq, Repr

/-- The test `preamble[0] == 0x00 && preamble[1] == 0x00 && preamble[2] == 0xFF`. -/
def isStart (p0 p1 p2 : Nat) : Bool := p0 == 0x00 && p1 == 0x00 && p2 == 0xFF

def MAX_SCAN : Nat := 10

section Decode
variable {σ : Type}

/-- The loop `for (scan = 0; scan < MAX_SCAN; ++scan)` of `parseResponse`, with the
number of iterations still to run as first argument. -/
def scanPreamble (tp : Transport σ) (txn : Transaction) :
    Nat → World σ → Scan × World σ
  | 0, w => (Scan.missing, w)
  | k + 1, w =>
    let r := txn.read tp 3 w
    if r.1 ≠ Status.SUCCESS then (Scan.failed r.1, r.2.2)
    else if isStart (r.2.1.getD 0 0) (r.2.1.getD 1 0) (r.2.1.getD 2 0) then
      (Scan.found, r.2.2)
    else
      let n := txn.read tp 1 r.2.2
      if n.1 ≠ Status.SUCCESS then (Scan.failed n.1, n.2.2)
      else if isStart (r.2.1.getD 1 0) (r.2.1.getD 2 0) (n.2.1.getD 0 0) then
        (Scan.found, n.2.2)
      else scanPreamble tp txn k n.2.2

/-- The length field of `parseResponse` (from `txn.read(len_lcs)` to `len = ...`):
either the decoded `len` or the status returned early. -/
def parseLength (tp : Transport σ) (txn : Transaction) (w : World σ) :
    Except Status Nat × World σ :=
  let r := txn.read tp 2 w
  if r.1 ≠ Status.SUCCESS then (Except.error r.1, r.2.2)
  else if r.2.1.getD 0 0 == 0xFF && r.2.1.getD 1 0 == 0xFF then
    let e := txn.read tp 3 r.2.2
    if e.1 ≠ Status.SUCCESS then (Except.error e.1, e.2.2)
    else
      let len_m := e.2.1.getD 0 0
      let len_l := e.2.1.getD 1 0
      let lcs := e.2.1.getD 2 0
      if (len_m + len_l + lcs) % 256 ≠ 0x00 then
        (Except.error Status.CHECKSUM_ERROR, e.2.2)
      else (Except.ok (((len_m <<< 8) ||| len_l) % 65536), e.2.2)
  else
    let len_std := r.2.1.getD 0 0
    let lcs := r.2.1.getD 1 0
    if (len_std + lcs) % 256 ≠ 0x00 then (Except.error Status.CHECKSUM_ERROR, r.2.2)
    else (Except.ok len_std, r.2.2)

/-- The rest of `parseResponse`, from `if (len == 0)` to the end. -/
def parseBody (tp : Transport σ) (txn : Transaction) (len : Nat) (buffer : List Nat)
    (w : World σ) : Status × List Nat × World σ :=
  if len = 0 then (Status.INVALID_FRAME, buffer, w)
  else
    let f := txn.read tp len w
    if f.1 ≠ Status.SUCCESS then (f.1, buffer, f.2.2)
    else
      let frame_data := f.2.1
      let tfi := frame_data.getD 0 0
      let d := txn.read tp 1 f.2.2
      if d.1 ≠ Status.SUCCESS then (d.1, buffer, d.2.2)
      else
        let dcs := d.2.1.getD 0 0
        if len = 1 ∧ frame_data.getD 0 0 = 0x7F ∧ dcs = 0x81 then
          (Status.ERROR_FRAME, buffer, d.2.2)
        else if tfi ≠ PN532_PN532TOHOST then (Status.INVALID_FRAME, buffer, d.2.2)
        else
          let sum := (frame_data.take len).foldl (fun sum b => (sum + b) % 256) 0
          if (sum + dcs) % 256 ≠ 0 then (Status.CHECKSUM_ERROR, buffer, d.2.2)
          else
            let p := txn.read tp 1 d.2.2
            let data_len := len - 1
            (Status.SUCCESS, (frame_data.drop 1).take data_len, p.2.2)

/-- The method `Frontend::parseResponse`. -/
def parseResponse (tp : Transport σ) (txn : Transaction) (buffer : List Nat)
    (w : World σ) : Status × List Nat × World σ :=
  match scanPreamble tp txn MAX_SCAN w with
  | (Scan.failed st, w1) => (st, buffer, w1)
  | (Scan.missing, w1) => (Status.INVALID_FRAME, buffer, w1)
  | (Scan.found, w1) =>
    match parseLength tp txn w1 with
    | (Except.error st, w2) => (st, buffer, w2)
    | (Except.ok len, w2) => parseBody tp txn len buffer w2

/-- The method `Frontend::transceive`; the guard `txn` is destroyed on every return. -/
def transceive (tp : Transport σ) (cmd : List Nat) (response : List Nat)
    (timeout_ms : Nat) (w : World σ) : Status × List Nat × World σ :=
  let packet := buildPacket cmd
  let b := callBegin tp w
  if !b.1.valid then (Status.TRANSPORT_ERROR, response, b.1.destroy tp b.2)
  else
    let wr := b.1.write tp packet b.2
    if wr.1 ≠ Status.SUCCESS then (wr.1, response, b.1.destroy tp wr.2)
    else
      let a := b.1.waitForAck tp 100 wr.2
      if a.1 ≠ Status.SUCCESS then (a.1, response, a.2.1.destroy tp a.2.2)
      else
        let r := a.2.1.waitForResponse tp timeout_ms a.2.2
        if r.1 ≠ Status.SUCCESS then (r.1, response, r.2.1.destroy tp r.2.2)
        else
          let p := parseResponse tp r.2.1 response r.2.2
          (p.1, p.2.1, r.2.1.destroy tp p.2.2)

end Decode

/-! ## `pn532.cpp`: the public operations -/

/-- The class `Frontend`: its only mutable member is the scratch vector `_packetBuffer`. -/
structure Frontend where
  packetBuffer : List Nat
  deriving DecidableEq, Repr

/-- The constructor `Frontend::Frontend`, which resizes `_packetBuffer` to 64. -/
def Frontend.new : Frontend := { packetBuffer := List.replicate 64 0 }

section Operations
variable {σ : Type}

/-- A private helper shared by the operations that decode into `_packetBuffer`:
the call `transceive(command, _packetBuffer)`. -/
def Frontend.transceiveScratch (tp : Transport σ) (fe : Frontend) (command : List Nat)
    (w : World σ) : Status × Frontend × World σ :=
  let r := transceive tp command fe.packetBuffer 1000 w
  (r.1, { packetBuffer := r.2.1 }, r.2.2)

def Frontend.SAMConfig (tp : Transport σ) (fe : Frontend) (w : World σ) :
    Status × Frontend × World σ :=
  fe.transceiveScratch tp [PN532_COMMAND_SAMCONFIGURATION, 0x01, 0x14, 0x01] w

def Frontend.begin (tp : Transport σ) (fe : Frontend) (w : World σ) :
    Status × Frontend × World σ :=
  fe.SAMConfig tp (callSwReset tp w)

def Frontend.GetFirmwareVersion (tp : Transport σ) (w : World σ) : Nat × World σ :=
  let r := transceive tp [PN532_COMMAND_GETFIRMWAREVERSION] [] 1000 w
  if r.1 ≠ Status.SUCCESS then (0, r.2.2)
  else if r.2.1.length < 5 then (0, r.2.2)
  else
    let v0 := r.2.1.getD 2 0
    let v1 := (v0 <<< 8) % 4294967296
    let v2 := v1 ||| r.2.1.getD 3 0
    let v3 := (v2 <<< 16) % 4294967296
    let v4 := v3 ||| r.2.1.getD 4 0
    (v4, r.2.2)

def Frontend.RFConfiguration (tp : Transport σ) (fe : Frontend) (cfgItem : Nat)
    (confData : List Nat) (w : World σ) : Status × Frontend × World σ :=
  fe.transceiveScratch tp ([PN532_COMMAND_RFCONFIGURATION, cfgItem] ++ confData) w

def Frontend.setPassiveActivationRetries (tp : Transport σ) (fe : Frontend)
    (maxRetries : Nat) (w : World σ) : Status × Frontend × World σ :=
  fe.RFConfiguration tp 0x05 [0xFF, 0x01, maxRetries] w

def Frontend.InRelease (tp : Transport σ) (fe : Frontend) (target : Nat) (w : World σ) :
    Status × Frontend × World σ :=
  fe.transceiveScratch tp [PN532_COMMAND_INRELEASE, target] w

def Frontend.InSelect (tp : Transport σ) (fe : Frontend) (target : Nat) (w : World σ) :
    Status × Frontend × World σ :=
  let r := fe.transceiveScratch tp [PN532_COMMAND_INSELECT, target] w
  if r.1 ≠ Status.SUCCESS then (r.1, r.2.1, r.2.2)
  else if r.2.1.packetBuffer.length > 1 ∧ r.2.1.packetBuffer.getD 1 0 ≠ 0x00 then
    (Status.INVALID_TARGET, r.2.1, r.2.2)
  else (r.1, r.2.1, r.2.2)

def Frontend.GetGeneralStatus (tp : Transport σ) (response : List Nat) (w : World σ) :
    Status × List Nat × World σ :=
  transceive tp [PN532_COMMAND_GETGENERALSTATUS] response 1000 w

def Frontend.PowerDown (tp : Transport σ) (fe : Frontend) (wakeupEnable genIrqEnable : Nat)
    (w : World σ) : Status × Frontend × World σ :=
  fe.transceiveScratch tp [PN532_COMMAND_POWERDOWN, wakeupEnable, genIrqEnable] w

/-- The output parameters `uid`, `sens_res` and `sel_res` of `InListPassiveTarget`. -/
structure TargetInfo where
  uid : List Nat
  sens_res : Nat × Nat
  sel_res : Nat
  deriving DecidableEq, Repr

def Frontend.InListPassiveTarget (tp : Transport σ) (cardbaudrate : Nat)
    (out : TargetInfo) (timeout : Nat) (w : World σ) : Status × TargetInfo × World σ :=
  let r := transceive tp [PN532_COMMAND_INLISTPASSIVETARGET, 1, cardbaudrate] [] timeout w
  let response := r.2.1
  if r.1 ≠ Status.SUCCESS then (r.1, out, r.2.2)
  else if response.length < 2 ∨ response.getD 1 0 = 0 then
    (Status.NO_TAGS_FOUND, out, r.2.2)
  else if response.length < 8 then (Status.INVALID_FRAME, out, r.2.2)
  else
    let uid_len := response.getD 6 0
    if response.length < 7 + uid_len then (Status.INVALID_FRAME, out, r.2.2)
    else
      (r.1,
       { uid := out.uid ++ (response.drop 7).take uid_len,
         sens_res := (response.getD 3 0, response.getD 4 0),
         sel_res := response.getD 5 0 },
       r.2.2)

def Frontend.InCommunicateThru (tp : Transport σ) (send : List Nat) (response : List Nat)
    (timeout : Nat) (w : World σ) : Status × List Nat × World σ :=
  transceive tp ([PN532_COMMAND_INCOMMUNICATETHRU] ++ send) response timeout w

def Frontend.InDataExchange (tp : Transport σ) (send : List Nat) (response : List Nat)
    (timeout : Nat) (w : World σ) : Status × List Nat × World σ :=
  let r := transceive tp ([PN532_COMMAND_INDATAEXCHANGE, 0x01] ++ send) response timeout w
  if !r.2.1.isEmpty ∧ r.2.1.getD 0 0 ≠ 0x41 then (Status.INVALID_FRAME, r.2.1, r.2.2)
  else (r.1, r.2.1, r.2.2)

def Frontend.ReadRegister (tp : Transport σ) (reg : List Nat) (response : List Nat)
    (w : World σ) : Status × List Nat × World σ :=
  transceive tp ([PN532_COMMAND_READREGISTER] ++ reg) response 1000 w

def Frontend.WriteRegister (tp : Transport σ) (fe : Frontend) (data : List Nat)
    (w : World σ) : Status × Frontend × World σ :=
  fe.transceiveScratch tp ([PN532_COMMAND_WRITEREGISTER] ++ data) w

end Operations

/-! ## A scripted transport

A concrete implementation of the transport contract, used to run the driver on given
byte streams: `begin` and `writeChunk` answer as configured, `waitReady` and
`prepareRead` answer from scripts, and `readChunk` serves the bytes of `rx` in order,
failing when fewer bytes are left than the span asks for. -/

structure Mock where
  beginOk : Bool
  writeSt : Status
  ready : List Bool
  prep : List Status
  rx : List Nat
  deriving DecidableEq, Repr

def mockTransport : Transport Mock where
  swReset m := m
  abort m := m
  begin m := (m.beginOk, m)
  writeChunk _ m := (m.writeSt, m)
  waitReady _ m := (m.ready.headD false, { m with ready := m.ready.tail })
  prepareRead m := (m.prep.headD Status.TRANSPORT_ERROR, { m with prep := m.prep.tail })
  readChunk n m :=
    if n ≤ m.rx.length then (Status.SUCCESS, m.rx.take n, { m with rx := m.rx.drop n })
    else (Status.TRANSPORT_ERROR, [], m)
  endTransaction m := m

/-- A device that is past the response wait and will deliver `rx`. -/
def Mock.stream (rx : List Nat) : Mock :=
  { beginOk := true, writeSt := Status.SUCCESS, ready := [], prep := [], rx := rx }

/-- A guard in read mode, as left by a successful `waitForResponse`. -/
def readModeTxn : Transaction := { transport := some 0, valid := true, in_read_mode := true }

/-- Runs `parseResponse` over the byte stream `rx` through a read-mode guard and returns
the status and the output buffer. -/
def decodeStream (rx : List Nat) (buffer : List Nat) : Status × List Nat :=
  let r := parseResponse mockTransport readModeTxn buffer { dev := Mock.stream rx, trace := [] }
  (r.1, r.2.1)

/-! ## Vocabulary of the properties -/

/-- Every element is a byte value. -/
def Bytes (l : List Nat) : Prop := ∀ b ∈ l, b < 256

instance (l : List Nat) : Decidable (Bytes l) := by unfold Bytes; infer_instance

/-- The guard can read: it is valid, bound to a transport and in read mode. -/
def Transaction.canRead (txn : Transaction) : Prop :=
  txn.valid = true ∧ txn.transport.isSome = true ∧ txn.in_read_mode = true

/-- The three bytes `00 00 FF` stand at offset `i` of the stream `s`. -/
def startsAt (s : List Nat) (i : Nat) : Bool :=
  s.getD i 1 == 0x00 && s.getD (i + 1) 1 == 0x00 && s.getD (i + 2) 0 == 0xFF

/-- The sum of the bytes of `l`, reduced to eight bits. -/
def byteSum (l : List Nat) : Nat := l.sum % 256

/-- A frame with its direction byte (offset 5) forced to the device-to-host value and its
data checksum (last byte but one) recomputed over direction byte and body by the rule
of `transceive`. -/
def forceDirection (packet : List Nat) : List Nat :=
  let p := packet.set 5 PN532_PN532TOHOST
  let body := (p.drop 5).take (p.length - 7)
  p.set (p.length - 2) (negByte (runningSum 0 body))

/-- A valid response frame carrying the data bytes `D5 03`. -/
def sampleFrame : List Nat := [0x00, 0x00, 0xFF, 0x02, 0xFE, 0xD5, 0x03, 0x28, 0x00]

/-- A valid standard frame with 255 data bytes `D5 2B 00 ... 00`. -/
def frame255 : List Nat :=
  [0x00, 0x00, 0xFF, 0xFF, 0x01, 0xD5, 0x2B] ++ List.replicate 253 0 ++ [0x00, 0x00]

/-- A device that is ready once, accepts one `prepareRead` and then delivers `rx`. -/
def Mock.acking (rx : List Nat) : Mock :=
  { beginOk := true, writeSt := Status.SUCCESS, ready := [true], prep := [Status.SUCCESS],
    rx := rx }

/-- A guard as returned by a successful `begin`. -/
def activeTxn : Transaction := { transport := some 0, valid := true, in_read_mode := false }

/-- A device that answers a whole exchange: `ready` and `prep` script the two waits and
the two `prepareRead` calls, `rx` holds the ACK bytes followed by the response bytes. -/
def Mock.exchange (ready : List Bool) (prep : List Status) (rx : List Nat) : Mock :=
  { beginOk := true, writeSt := Status.SUCCESS, ready := ready, prep := prep, rx := rx }

/-- Whether the bus is released at the end of a trace: replaying the calls, `begin`,
`writeChunk`, `prepareRead` and `readChunk` engage the bus and `endTransaction` releases
it.  The result is `true` exactly when an `endTransaction` follows the last engaging
call (or there is none). -/
def busReleased (trace : List Call) : Bool :=
  !trace.foldl
    (fun held c =>
      match c with
      | Call.begin => true
      | Call.writeChunk _ => true
      | Call.prepareRead => true
      | Call.readChunk _ => true
      | Call.endTransaction => false
      | _ => held)
    false

/-- One call of a method of the guard. -/
inductive TxnOp where
  | write (data : List Nat)
  | waitForAck (timeout_ms : Nat)
  | waitForResponse (timeout_ms : Nat)
  | read (size : Nat)
  deriving DecidableEq, Repr

/-- Performs one call on the guard and returns its status, the guard and the world. -/
def Transaction.step {σ : Type} (tp : Transport σ) (txn : Transaction) (op : TxnOp)
    (w : World σ) : Status × Transaction × World σ :=
  match op with
  | TxnOp.write data => ((txn.write tp data w).1, txn, (txn.write tp data w).2)
  | TxnOp.waitForAck t => txn.waitForAck tp t w
  | TxnOp.waitForResponse t => txn.waitForResponse tp t w
  | TxnOp.read n => ((txn.read tp n w).1, txn, (txn.read tp n w).2.2)

/-- Performs a sequence of calls on the guard and collects the statuses. -/
def Transaction.run {σ : Type} (tp : Transport σ) (txn : Transaction) :
    List TxnOp → World σ → List Status × Transaction × World σ
  | [], w => ([], txn, w)
  | op :: ops, w =>
    let r := txn.step tp op w
    let rest := Transaction.run tp r.2.1 ops r.2.2
    (r.1 :: rest.1, rest.2.1, rest.2.2)

/-- The trace of `w2` is the trace of `w1` followed by further calls. -/
def Extends {σ : Type} (w1 w2 : World σ) : Prop := ∃ ext, w2.trace = w1.trace ++ ext

/-- A device that acknowledges a command and then delivers the response frame `frame`. -/
def Mock.answering (frame : List Nat) : Mock :=
  Mock.exchange [true, true] [Status.SUCCESS, Status.SUCCESS] (EXPECTED_ACK ++ frame)

/-- Runs `parseResponse` over the byte stream `rx` through a read-mode guard and returns
the transport calls it made and the bytes it left unread. -/
def decodeEffect (rx : List Nat) (buffer : List Nat) : List Call × List Nat :=
  let r := parseResponse mockTransport readModeTxn buffer { dev := Mock.stream rx, trace := [] }
  (r.2.2.trace, r.2.2.dev.rx)

/-- Runs the resynchronisation loop of `parseResponse` over the byte stream `rx` through a
read-mode guard and returns its outcome and the bytes it left unread. -/
def scanStream (rx : List Nat) : Scan × List Nat :=
  let r := scanPreamble mockTransport readModeTxn MAX_SCAN { dev := Mock.stream rx, trace := [] }
  (r.1, r.2.dev.rx)

/-! ## `transaction.cpp`: move construction and move assignment -/

/-- The state `(nullptr, false, false)` of a default-constructed or moved-from guard. -/
def Transaction.cleared : Transaction :=
  { transport := none, valid := false, in_read_mode := false }

/-- The statement `if (_valid && _transport) _transport->endTransaction();` of the
destructor and of move assignment: the transports that receive an `endTransaction` call
(one or none). -/
def Transaction.release (g : Transaction) : List Nat :=
  match g.valid, g.transport with
  | true, some t => [t]
  | _, _ => []

/-- The move constructor `Transaction(Transaction &&other)`: the guard constructed and
`other` afterwards. -/
def Transaction.moveConstruct (other : Transaction) : Transaction × Transaction :=
  ({ transport := other.transport, valid := other.valid, in_read_mode := other.in_read_mode },
   { transport := none, valid := false, in_read_mode := false })

/-- The guard objects of a program, by address, and the transports on which
`endTransaction` has been called so far. -/
structure Guards where
  slots : List Transaction
  ended : List Nat
  deriving DecidableEq, Repr

/-- The guard at address `a`. -/
def Guards.get (s : Guards) (a : Nat) : Transaction := s.slots.getD a Transaction.cleared

/-- Constructs a new guard, at the next free address, by moving from the guard at `src`. -/
def Guards.moveConstruct (s : Guards) (src : Nat) : Guards :=
  if src < s.slots.length then
    let r := (s.get src).moveConstruct
    { slots := s.slots.set src r.2 ++ [r.1], ended := s.ended }
  else s

/-- The move assignment `operator=(Transaction &&other)` with `this` at address `dst` and
`other` at address `src`. -/
def Guards.moveAssign (s : Guards) (dst src : Nat) : Guards :=
  if dst < s.slots.length ∧ src < s.slots.length then
    if dst ≠ src then
      let target := s.get dst
      let other := s.get src
      { slots :=
          (s.slots.set dst
            { transport := other.transport, valid := other.valid,
              in_read_mode := other.in_read_mode }).set src
            { transport := none, valid := false, in_read_mode := false },
        ended := s.ended ++ target.release }
    else s
  else s

/-- The `endTransaction` calls made in total once the destructor of every guard has run
(in address order). -/
def Guards.destroyAll (s : Guards) : List Nat :=
  s.slots.foldl (fun log g => log ++ g.release) s.ended

/-- A move of a guard: construction of a new guard from the one at `src`, or assignment of
the one at `src` to the one at `dst`. -/
inductive MoveOp where
  | construct (src : Nat)
  | assign (dst src : Nat)
  deriving DecidableEq, Repr

def Guards.step (s : Guards) : MoveOp → Guards
  | MoveOp.construct src => s.moveConstruct src
  | MoveOp.assign dst src => s.moveAssign dst src

def Guards.run (s : Guards) (ops : List MoveOp) : Guards := ops.foldl Guards.step s

/-- Exactly one release of transport `t` is still due or already done. -/
def Guards.OneOwner (t : Nat) (s : Guards) : Prop :=
  s.ended.length + (s.slots.map (fun g => g.release.length)).sum = 1
    ∧ (∀ x ∈ s.ended, x = t)
    ∧ (∀ g ∈ s.slots, ∀ x ∈ g.release, x = t)

/-! # Properties -/

/-! ## Bytes and spans -/

theorem fill_length (n : Nat) (out : List Nat) : (fill n out).length = n := by
  simp [fill]

theorem fill_bytes (n : Nat) (out : List Nat) : Bytes (fill n out) := by
  intro b hb
  simp only [fill, List.mem_map] at hb
  obtain ⟨i, _, rfl⟩ := hb
  exact Nat.mod_lt _ (by decide)

theorem fill_eq_self {n : Nat} {out : List Nat} (hlen : out.length = n) (hb : Bytes out) :
    fill n out = out := by
  apply List.ext_getElem
  · simp [fill, hlen]
  · intro i h1 h2
    have hi : i < out.length := h2
    simp only [fill, List.getElem_map, List.getElem_range]
    rw [List.getD_eq_getElem _ _ hi]
    exact Nat.mod_eq_of_lt (hb _ (List.getElem_mem hi))

theorem Bytes.take {l : List Nat} (h : Bytes l) (n : Nat) : Bytes (l.take n) :=
  fun b hb => h b (List.mem_of_mem_take hb)

theorem Bytes.drop {l : List Nat} (h : Bytes l) (n : Nat) : Bytes (l.drop n) :=
  fun b hb => h b (List.mem_of_mem_drop hb)

theorem runningSum_eq (init : Nat) (hi : init < 256) (l : List Nat) :
    runningSum init l = (init + l.sum) % 256 := by
  induction l generalizing init with
  | nil => simp [runningSum, Nat.mod_eq_of_lt hi]
  | cons b t ih =>
    have h := ih ((init + b) % 256) (Nat.mod_lt _ (by decide))
    simp only [runningSum, List.foldl_cons, List.sum_cons] at h ⊢
    rw [h]
    omega

theorem negByte_add (x : Nat) : (x + negByte x) % 256 = 0 := by
  unfold negByte
  omega

theorem negByte_lt (x : Nat) : negByte x < 256 := by
  unfold negByte
  omega

/-! ## Reading from the scripted transport -/

theorem read_mock {txn : Transaction} (ht : txn.canRead) (n : Nat) (w : World Mock)
    (hn : n ≤ w.dev.rx.length) (hb : Bytes (w.dev.rx.take n)) :
    (txn.read mockTransport n w).1 = Status.SUCCESS
      ∧ (txn.read mockTransport n w).2.1 = w.dev.rx.take n
      ∧ (txn.read mockTransport n w).2.2.dev.rx = w.dev.rx.drop n := by
  obtain ⟨h1, h2, h3⟩ := ht
  have hf : fill n (w.dev.rx.take n) = w.dev.rx.take n :=
    fill_eq_self (by simp [hn]) hb
  have h2' : txn.transport ≠ none := by
    intro h
    simp [h] at h2
  simp [Transaction.read, h1, h2', h3, callReadChunk, mockTransport, hn, hf]

theorem read_mock_short (txn : Transaction) (n : Nat) (w : World Mock)
    (hn : w.dev.rx.length < n) :
    (txn.read mockTransport n w).1 = Status.TRANSPORT_ERROR := by
  have : ¬ n ≤ w.dev.rx.length := by omega
  unfold Transaction.read
  split
  · rfl
  · split
    · rfl
    · simp [callReadChunk, mockTransport, this]

/-- What a read returns depends on the pending bytes only, not on the rest of the world. -/
theorem read_mock_congr (txn : Transaction) (n : Nat) {w1 w2 : World Mock}
    (h : w1.dev.rx = w2.dev.rx) :
    (txn.read mockTransport n w1).1 = (txn.read mockTransport n w2).1
      ∧ (txn.read mockTransport n w1).2.1 = (txn.read mockTransport n w2).2.1
      ∧ (txn.read mockTransport n w1).2.2.dev.rx
          = (txn.read mockTransport n w2).2.2.dev.rx := by
  unfold Transaction.read
  split
  · exact ⟨rfl, rfl, h⟩
  · split
    · exact ⟨rfl, rfl, h⟩
    · simp only [callReadChunk, mockTransport, h]
      split <;> simp [h]

/-! ## The three phases of `parseResponse` over the scripted transport -/

theorem scan_here {txn : Transaction} (ht : txn.canRead) (k : Nat) (w : World Mock)
    (rest : List Nat) (hrx : w.dev.rx = 0 :: 0 :: 255 :: rest) :
    (scanPreamble mockTransport txn (k + 1) w).1 = Scan.found
      ∧ (scanPreamble mockTransport txn (k + 1) w).2.dev.rx = rest := by
  obtain ⟨h1, h2, h3⟩ := read_mock ht 3 w (by simp [hrx]) (by simp [hrx, Bytes])
  simp only [hrx, List.take_succ_cons, List.take_zero, List.drop_succ_cons,
    List.drop_zero] at h2 h3
  simp [scanPreamble, h1, h2, h3, isStart]

theorem parseLength_std {txn : Transaction} (ht : txn.canRead) (w : World Mock)
    (len lcs : Nat) (rest : List Nat) (hrx : w.dev.rx = len :: lcs :: rest)
    (hlen : len < 256) (hlcs : lcs < 256) (hstd : ¬ (len = 255 ∧ lcs = 255)) :
    (parseLength mockTransport txn w).1
        = (if (len + lcs) % 256 ≠ 0 then Except.error Status.CHECKSUM_ERROR
           else Except.ok len)
      ∧ (parseLength mockTransport txn w).2.dev.rx = rest := by
  obtain ⟨h1, h2, h3⟩ := read_mock ht 2 w (by simp [hrx])
    (by intro b hb; simp [hrx] at hb; omega)
  simp only [hrx, List.take_succ_cons, List.take_zero, List.drop_succ_cons,
    List.drop_zero] at h2 h3
  have hs : ¬ (len = 255 ∧ lcs = 255) := hstd
  unfold parseLength
  simp only [h1, h2, h3]
  by_cases hc : (len + lcs) % 256 = 0 <;> simp [hc, hs, h3]

theorem shift_or (hi lo : Nat) (hhi : hi < 256) (hlo : lo < 256) :
    ((hi <<< 8) ||| lo) % 65536 = hi * 256 + lo := by
  have h1 : hi <<< 8 = 2 ^ 8 * hi := by rw [Nat.shiftLeft_eq]; ring
  rw [h1, ← Nat.mul_add_lt_is_or (by simpa using hlo)]
  omega

theorem parseLength_ext {txn : Transaction} (ht : txn.canRead) (w : World Mock)
    (hi lo lcs : Nat) (rest : List Nat)
    (hrx : w.dev.rx = 255 :: 255 :: hi :: lo :: lcs :: rest)
    (hhi : hi < 256) (hlo : lo < 256) (hlcs : lcs < 256) :
    (parseLength mockTransport txn w).1
        = (if (hi + lo + lcs) % 256 ≠ 0 then Except.error Status.CHECKSUM_ERROR
           else Except.ok (hi * 256 + lo))
      ∧ ((hi + lo + lcs) % 256 = 0 → (parseLength mockTransport txn w).2.dev.rx = rest) := by
  obtain ⟨h1, h2, h3⟩ := read_mock ht 2 w (by simp [hrx])
    (by intro b hb; simp [hrx] at hb; omega)
  simp only [hrx, List.take_succ_cons, List.take_zero, List.drop_succ_cons,
    List.drop_zero] at h2 h3
  obtain ⟨e1, e2, e3⟩ := read_mock ht 3 (txn.read mockTransport 2 w).2.2 (by simp [h3])
    (by intro b hb; simp [h3] at hb; omega)
  simp only [h3, List.take_succ_cons, List.take_zero, List.drop_succ_cons,
    List.drop_zero] at e2 e3
  unfold parseLength
  simp only [h1, h2, e1, e2]
  by_cases hc : (hi + lo + lcs) % 256 = 0 <;> simp [hc, e3, shift_or hi lo hhi hlo]


theorem foldl_sum_eq (l : List Nat) :
    l.foldl (fun sum b => (sum + b) % 256) 0 = byteSum l := by
  have h := runningSum_eq 0 (by decide) l
  simp only [runningSum, Nat.zero_add] at h
  simpa [byteSum] using h

theorem parseBody_data {txn : Transaction} (ht : txn.canRead) (w : World Mock)
    (buffer d : List Nat) (len dcs : Nat) (rest : List Nat)
    (hrx : w.dev.rx = d ++ dcs :: rest) (hlen : d.length = len)
    (hd : Bytes d) (hdcs : dcs < 256)
    (htfi : d.head? = some PN532_PN532TOHOST)
    (hsum : (byteSum d + dcs) % 256 = 0) :
    (parseBody mockTransport txn len buffer w).1 = Status.SUCCESS
      ∧ (parseBody mockTransport txn len buffer w).2.1 = d.tail := by
  obtain ⟨f1, f2, f3⟩ := read_mock ht len w (by simp [hrx, ← hlen])
    (by rw [hrx, List.take_left' hlen]; exact hd)
  rw [hrx, List.take_left' hlen] at f2
  rw [hrx, List.drop_left' hlen] at f3
  obtain ⟨d1, d2, d3⟩ := read_mock ht 1 (txn.read mockTransport len w).2.2
    (by simp [f3]) (by intro b hb; simp [f3] at hb; omega)
  simp only [f3, List.take_succ_cons, List.take_zero] at d2
  obtain ⟨t, body, rfl⟩ : ∃ t body, d = t :: body := by
    cases d with
    | nil => simp at htfi
    | cons t body => exact ⟨t, body, rfl⟩
  have ht0 : t = PN532_PN532TOHOST := by simpa using htfi
  have hl0 : len ≠ 0 := by rw [← hlen]; simp
  have htk : (t :: body).take len = t :: body := by rw [← hlen]; simp
  have hsum' : ((t :: body).foldl (fun sum b => (sum + b) % 256) 0 + dcs) % 256 = 0 := by
    rw [foldl_sum_eq]; exact hsum
  have hdt : (body).take (len - 1) = body := by rw [← hlen]; simp
  have hsum2 : (List.foldl (fun sum b => (sum + b) % 256) 213 body + dcs) % 256 = 0 := by
    simpa [ht0, PN532_PN532TOHOST] using hsum'
  unfold parseBody
  simp only [f1, f2, d1, d2, htk]
  simp [ht0, PN532_PN532TOHOST, hl0, hsum2, hdt]


/-! ## How `parseResponse` chains its phases -/

section Chain
variable {σ : Type}

theorem parseResponse_of_found (tp : Transport σ) (txn : Transaction) (buffer : List Nat)
    (w : World σ) (len : Nat)
    (hs : (scanPreamble tp txn MAX_SCAN w).1 = Scan.found)
    (hl : (parseLength tp txn (scanPreamble tp txn MAX_SCAN w).2).1 = Except.ok len) :
    parseResponse tp txn buffer w
      = parseBody tp txn len buffer (parseLength tp txn (scanPreamble tp txn MAX_SCAN w).2).2 := by
  unfold parseResponse
  generalize scanPreamble tp txn MAX_SCAN w = r at hs hl
  obtain ⟨sc, w1⟩ := r
  simp only at hs hl
  subst hs
  simp only
  generalize parseLength tp txn w1 = q at hl
  obtain ⟨e, w2⟩ := q
  simp only at hl
  subst hl
  rfl

theorem parseResponse_of_lenError (tp : Transport σ) (txn : Transaction)
    (buffer : List Nat) (w : World σ) (st : Status)
    (hs : (scanPreamble tp txn MAX_SCAN w).1 = Scan.found)
    (hl : (parseLength tp txn (scanPreamble tp txn MAX_SCAN w).2).1 = Except.error st) :
    (parseResponse tp txn buffer w).1 = st ∧ (parseResponse tp txn buffer w).2.1 = buffer := by
  unfold parseResponse
  generalize scanPreamble tp txn MAX_SCAN w = r at hs hl
  obtain ⟨sc, w1⟩ := r
  simp only at hs hl
  subst hs
  simp only
  generalize parseLength tp txn w1 = q at hl
  obtain ⟨e, w2⟩ := q
  simp only at hl
  subst hl
  exact ⟨rfl, rfl⟩

theorem parseResponse_of_missing (tp : Transport σ) (txn : Transaction)
    (buffer : List Nat) (w : World σ)
    (hs : (scanPreamble tp txn MAX_SCAN w).1 = Scan.missing) :
    (parseResponse tp txn buffer w).1 = Status.INVALID_FRAME
      ∧ (parseResponse tp txn buffer w).2.1 = buffer := by
  unfold parseResponse
  generalize scanPreamble tp txn MAX_SCAN w = r at hs
  obtain ⟨sc, w1⟩ := r
  simp only at hs
  subst hs
  exact ⟨rfl, rfl⟩

end Chain

/-- A well-formed standard frame decodes to its data without the direction byte,
whatever follows the data checksum. -/
theorem decode_std {txn : Transaction} (ht : txn.canRead) (w : World Mock)
    (buffer d : List Nat) (lcs dcs : Nat) (rest : List Nat)
    (hrx : w.dev.rx = 0 :: 0 :: 255 :: d.length :: lcs :: (d ++ dcs :: rest))
    (hlen : d.length < 256) (hlcs : lcs < 256) (hl : (d.length + lcs) % 256 = 0)
    (hd : Bytes d) (hdcs : dcs < 256) (htfi : d.head? = some PN532_PN532TOHOST)
    (hsum : (byteSum d + dcs) % 256 = 0) :
    (parseResponse mockTransport txn buffer w).1 = Status.SUCCESS
      ∧ (parseResponse mockTransport txn buffer w).2.1 = d.tail := by
  obtain ⟨s1, s2⟩ := scan_here ht 9 w _ hrx
  obtain ⟨l1, l2⟩ := parseLength_std ht (scanPreamble mockTransport txn 10 w).2
    d.length lcs _ s2 hlen hlcs (by omega)
  rw [if_neg (by simp [hl])] at l1
  rw [parseResponse_of_found mockTransport txn buffer w d.length s1 l1]
  exact parseBody_data ht _ buffer d d.length dcs rest l2 rfl hd hdcs htfi hsum

/-- A well-formed extended frame decodes to its data without the direction byte. -/
theorem decode_ext {txn : Transaction} (ht : txn.canRead) (w : World Mock)
    (buffer d : List Nat) (lcs dcs : Nat) (rest : List Nat)
    (hrx : w.dev.rx = 0 :: 0 :: 255 :: 255 :: 255 :: (d.length / 256) :: (d.length % 256)
        :: lcs :: (d ++ dcs :: rest))
    (hlen : d.length < 65536) (hlcs : lcs < 256)
    (hl : (d.length / 256 + d.length % 256 + lcs) % 256 = 0)
    (hd : Bytes d) (hdcs : dcs < 256) (htfi : d.head? = some PN532_PN532TOHOST)
    (hsum : (byteSum d + dcs) % 256 = 0) :
    (parseResponse mockTransport txn buffer w).1 = Status.SUCCESS
      ∧ (parseResponse mockTransport txn buffer w).2.1 = d.tail := by
  obtain ⟨s1, s2⟩ := scan_here ht 9 w _ hrx
  obtain ⟨l1, l2⟩ := parseLength_ext ht (scanPreamble mockTransport txn 10 w).2
    (d.length / 256) (d.length % 256) lcs _ s2 (by omega) (by omega) hlcs
  rw [if_neg (by simp [hl])] at l1
  have hn : d.length / 256 * 256 + d.length % 256 = d.length := by omega
  rw [hn] at l1
  rw [parseResponse_of_found mockTransport txn buffer w d.length s1 l1]
  exact parseBody_data ht _ buffer d d.length dcs rest (l2 hl) rfl hd hdcs htfi hsum


/-! ## Frame encode -/

theorem buildPacket_eq (cmd : List Nat) (h2 : cmd.length ≤ 254) :
    buildPacket cmd
      = [0x00, 0x00, 0xFF, cmd.length + 1, (256 - (cmd.length + 1)) % 256, 0xD4] ++ cmd
          ++ [(256 - ((0xD4 + cmd.sum) % 256)) % 256, 0x00] := by
  have hl : cmdLen cmd = cmd.length + 1 := by unfold cmdLen; omega
  have hn : negByte (cmd.length + 1) = (256 - (cmd.length + 1)) % 256 := by
    unfold negByte; omega
  have hs : negByte (runningSum 212 cmd) = (256 - ((212 + cmd.sum) % 256)) % 256 := by
    rw [runningSum_eq _ (by decide)]
    unfold negByte
    omega
  simp [buildPacket, hl, hn, hs, PN532_PREAMBLE, PN532_STARTCODE1, PN532_STARTCODE2,
    PN532_HOSTTOPN532, PN532_POSTAMBLE]

/-! ## The trace only grows -/

section Trace
variable {σ : Type}

theorem Extends.refl (w : World σ) : Extends w w := ⟨[], by simp⟩

theorem Extends.trans {w1 w2 w3 : World σ} (h1 : Extends w1 w2) (h2 : Extends w2 w3) :
    Extends w1 w3 := by
  obtain ⟨e1, h1⟩ := h1
  obtain ⟨e2, h2⟩ := h2
  exact ⟨e1 ++ e2, by rw [h2, h1, List.append_assoc]⟩

theorem read_extends (tp : Transport σ) (txn : Transaction) (n : Nat) (w : World σ) :
    Extends w (txn.read tp n w).2.2 := by
  unfold Transaction.read
  split
  · exact Extends.refl w
  · split
    · exact Extends.refl w
    · exact ⟨[Call.readChunk n], rfl⟩

theorem destroy_extends (tp : Transport σ) (txn : Transaction) (w : World σ) :
    Extends w (txn.destroy tp w) := by
  unfold Transaction.destroy
  split
  · exact ⟨[Call.endTransaction], rfl⟩
  · exact Extends.refl w

theorem waitForAck_extends (tp : Transport σ) (txn : Transaction) (t : Nat) (w : World σ) :
    Extends w (txn.waitForAck tp t w).2.2 := by
  unfold Transaction.waitForAck
  split
  · exact Extends.refl w
  · simp only [callEndTransaction, callWaitReady, callPrepareRead, callReadChunk]
    split
    · exact ⟨[Call.endTransaction, Call.waitReady t], by simp⟩
    · split
      · exact ⟨[Call.endTransaction, Call.waitReady t, Call.prepareRead], by simp⟩
      · split
        · exact ⟨[Call.endTransaction, Call.waitReady t, Call.prepareRead,
            Call.readChunk 6, Call.endTransaction], by simp⟩
        · split <;>
          exact ⟨[Call.endTransaction, Call.waitReady t, Call.prepareRead,
            Call.readChunk 6, Call.endTransaction], by simp⟩

theorem waitForResponse_extends (tp : Transport σ) (txn : Transaction) (t : Nat)
    (w : World σ) : Extends w (txn.waitForResponse tp t w).2.2 := by
  unfold Transaction.waitForResponse
  split
  · exact Extends.refl w
  · simp only [callWaitReady, callPrepareRead]
    split
    · exact ⟨[Call.waitReady t], by simp⟩
    · split <;> exact ⟨[Call.waitReady t, Call.prepareRead], by simp⟩

theorem scanPreamble_extends (tp : Transport σ) (txn : Transaction) (k : Nat) (w : World σ) :
    Extends w (scanPreamble tp txn k w).2 := by
  induction k generalizing w with
  | zero => exact Extends.refl w
  | succ k ih =>
    have e1 := read_extends tp txn 3 w
    have e2 := read_extends tp txn 1 (txn.read tp 3 w).2.2
    unfold scanPreamble
    simp only
    split
    · exact e1
    · split
      · exact e1
      · split
        · exact e1.trans e2
        · split
          · exact e1.trans e2
          · exact (e1.trans e2).trans (ih _)

theorem parseLength_extends (tp : Transport σ) (txn : Transaction) (w : World σ) :
    Extends w (parseLength tp txn w).2 := by
  have e1 := read_extends tp txn 2 w
  have e2 := read_extends tp txn 3 (txn.read tp 2 w).2.2
  unfold parseLength
  simp only
  split
  · exact e1
  · split
    · split
      · exact e1.trans e2
      · split <;> exact e1.trans e2
    · split <;> exact e1

theorem parseBody_extends (tp : Transport σ) (txn : Transaction) (len : Nat)
    (buffer : List Nat) (w : World σ) : Extends w (parseBody tp txn len buffer w).2.2 := by
  have e1 := read_extends tp txn len w
  have e2 := read_extends tp txn 1 (txn.read tp len w).2.2
  have e3 := read_extends tp txn 1 (txn.read tp 1 (txn.read tp len w).2.2).2.2
  unfold parseBody
  simp only
  split
  · exact Extends.refl w
  · split
    · exact e1
    · split
      · exact e1.trans e2
      · split
        · exact e1.trans e2
        · split
          · exact e1.trans e2
          · split
            · exact e1.trans e2
            · exact (e1.trans e2).trans e3

theorem parseResponse_extends (tp : Transport σ) (txn : Transaction) (buffer : List Nat)
    (w : World σ) : Extends w (parseResponse tp txn buffer w).2.2 := by
  have e1 := scanPreamble_extends tp txn MAX_SCAN w
  unfold parseResponse
  generalize scanPreamble tp txn MAX_SCAN w = r at e1
  obtain ⟨sc, w1⟩ := r
  cases sc with
  | failed st => exact e1
  | missing => exact e1
  | found =>
    simp only
    have e2 := parseLength_extends tp txn w1
    generalize parseLength tp txn w1 = q at e2
    obtain ⟨e, w2⟩ := q
    cases e with
    | error st => exact e1.trans e2
    | ok len => exact (e1.trans e2).trans (parseBody_extends tp txn len buffer w2)

theorem write_trace (tp : Transport σ) (txn : Transaction) (data : List Nat) (w : World σ)
    (hv : txn.valid = true) (ht : txn.transport.isSome = true) :
    (txn.write tp data w).2.trace = w.trace ++ [Call.writeChunk data] := by
  have h2 : txn.transport ≠ none := by
    intro h
    simp [h] at ht
  simp [Transaction.write, hv, h2, callWriteChunk]

/-- After a successful `begin`, `transceive` first writes the packet it built. -/
theorem transceive_writes (tp : Transport σ) (cmd response : List Nat) (t : Nat)
    (w : World σ) (hb : (tp.begin w.dev).1 = true) :
    ∃ ext, (transceive tp cmd response t w).2.2.trace
      = w.trace ++ [Call.begin, Call.writeChunk (buildPacket cmd)] ++ ext := by
  have hv : (callBegin tp w).1.valid = true := by simpa [callBegin] using hb
  have hw := write_trace tp (callBegin tp w).1 (buildPacket cmd) (callBegin tp w).2 hv
    (by simp [callBegin])
  have hw2 : ((callBegin tp w).1.write tp (buildPacket cmd) (callBegin tp w).2).2.trace
      = w.trace ++ [Call.begin, Call.writeChunk (buildPacket cmd)] := by
    rw [hw]; simp [callBegin]
  have key : ∀ w' : World σ,
      Extends ((callBegin tp w).1.write tp (buildPacket cmd) (callBegin tp w).2).2 w' →
      ∃ ext, w'.trace = w.trace ++ [Call.begin, Call.writeChunk (buildPacket cmd)] ++ ext := by
    rintro w' ⟨ext, h⟩
    exact ⟨ext, by rw [h, hw2]⟩
  apply key
  unfold transceive
  simp only [hv, Bool.not_true, Bool.false_eq_true, if_false]
  split
  · exact destroy_extends _ _ _
  · split
    · exact (waitForAck_extends _ _ _ _).trans (destroy_extends _ _ _)
    · split
      · exact ((waitForAck_extends _ _ _ _).trans (waitForResponse_extends _ _ _ _)).trans
          (destroy_extends _ _ _)
      · exact (((waitForAck_extends _ _ _ _).trans (waitForResponse_extends _ _ _ _)).trans
          (parseResponse_extends _ _ _ _)).trans (destroy_extends _ _ _)

end Trace

/-- Claim C2. For a command body of 1 to 254 bytes, the packet built by `transceive` is `00
00 FF, L+1, (256-(L+1)) mod 256, D4, cmd, (256-((D4+sum cmd) mod 256)) mod 256, 00`; it has
`L+8` bytes, its length byte and length checksum add up to 0 mod 256, direction byte, body
and data checksum add up to 0 mod 256, and after a successful `begin` this packet is the
argument of the first `writeChunk` call. -/
theorem C2_frame_layout (cmd : List Nat) (h1 : 1 ≤ cmd.length) (h2 : cmd.length ≤ 254) :
    buildPacket cmd
        = [0x00, 0x00, 0xFF, cmd.length + 1, (256 - (cmd.length + 1)) % 256, 0xD4] ++ cmd
            ++ [(256 - ((0xD4 + cmd.sum) % 256)) % 256, 0x00]
      ∧ (buildPacket cmd).length = cmd.length + 8
      ∧ ((buildPacket cmd).getD 3 0 + (buildPacket cmd).getD 4 0) % 256 = 0
      ∧ (0xD4 + cmd.sum + (buildPacket cmd).getD (cmd.length + 6) 0) % 256 = 0
      ∧ ∀ (σ : Type) (tp : Transport σ) (response : List Nat) (t : Nat) (w : World σ),
          (tp.begin w.dev).1 = true →
          ∃ ext, (transceive tp cmd response t w).2.2.trace
            = w.trace ++ [Call.begin, Call.writeChunk
                ([0x00, 0x00, 0xFF, cmd.length + 1, (256 - (cmd.length + 1)) % 256, 0xD4]
                  ++ cmd ++ [(256 - ((0xD4 + cmd.sum) % 256)) % 256, 0x00])] ++ ext := by
  have hp := buildPacket_eq cmd h2
  refine ⟨hp, ?_, ?_, ?_, ?_⟩
  · rw [hp]; simp
  · rw [hp]; simp; omega
  · rw [hp]
    have : (([0x00, 0x00, 0xFF, cmd.length + 1, (256 - (cmd.length + 1)) % 256, 0xD4] ++ cmd
          ++ [(256 - ((0xD4 + cmd.sum) % 256)) % 256, 0x00]).getD (cmd.length + 6) 0)
          = (256 - ((0xD4 + cmd.sum) % 256)) % 256 := by
      rw [List.getD_eq_getElem?_getD, List.getElem?_append_right (by simp)]
      simp
    rw [this]
    omega
  · intro σ tp response t w hb
    rw [← hp]
    exact transceive_writes tp cmd response t w hb

theorem C2_frame_layout_witness :
    1 ≤ [0x4A, 1, 0].length ∧ [0x4A, 1, 0].length ≤ 254
      ∧ buildPacket [0x4A, 1, 0]
          = [0x00, 0x00, 0xFF, 4, 0xFC, 0xD4, 0x4A, 1, 0, 0xE1, 0x00] := by
  have h := (C2_frame_layout [0x4A, 1, 0] (by decide) (by decide)).1
  exact ⟨by decide, by decide, by simpa using h⟩


theorem forceDirection_buildPacket (cmd : List Nat) (h2 : cmd.length ≤ 254) :
    forceDirection (buildPacket cmd)
      = 0 :: 0 :: 255 :: (0xD5 :: cmd).length :: ((256 - (cmd.length + 1)) % 256)
          :: ((0xD5 :: cmd) ++ negByte (runningSum 0 (0xD5 :: cmd)) :: [0]) := by
  rw [buildPacket_eq cmd h2]
  unfold forceDirection
  simp only [List.cons_append, List.nil_append, List.set_cons_succ, List.set_cons_zero,
    List.length_cons, List.length_append, List.length_nil, List.drop_succ_cons, List.drop_zero,
    PN532_PN532TOHOST]
  have e1 : cmd.length + (0 + 1 + 1) + 1 + 1 + 1 + 1 + 1 + 1 - 7 = cmd.length + 1 := by omega
  have e2 : cmd.length + (0 + 1 + 1) + 1 + 1 + 1 + 1 + 1 + 1 - 2 = cmd.length + 6 := by omega
  rw [e1, e2]
  simp only [List.take_succ_cons, List.set_cons_succ]
  rw [List.take_left' rfl]
  simp [List.set_append_right]

theorem canRead_readModeTxn : readModeTxn.canRead := ⟨rfl, rfl, rfl⟩

/-- Claim C1, as amended. For every command body `cmd` of 1 to 254 bytes, the frame that
`transceive` builds for `cmd`, with its direction byte forced to `0xD5` and its data
checksum recomputed, is decoded by `parseResponse` (read-mode guard, all reads succeeding)
to `SUCCESS` with output buffer `cmd`. -/
theorem C1_round_trip (cmd buffer : List Nat) (h1 : 1 ≤ cmd.length) (h2 : cmd.length ≤ 254)
    (hb : Bytes cmd) :
    decodeStream (forceDirection (buildPacket cmd)) buffer = (Status.SUCCESS, cmd) := by
  have hd : Bytes (0xD5 :: cmd) := by
    intro b hm
    rcases List.mem_cons.1 hm with h | h
    · omega
    · exact hb b h
  have hsum : (byteSum (0xD5 :: cmd) + negByte (runningSum 0 (0xD5 :: cmd))) % 256 = 0 := by
    rw [runningSum_eq 0 (by decide)]
    simp only [byteSum, Nat.zero_add]
    have := negByte_add ((0xD5 :: cmd).sum % 256)
    unfold negByte at this ⊢
    omega
  have h := decode_std canRead_readModeTxn
    { dev := Mock.stream (forceDirection (buildPacket cmd)), trace := [] } buffer
    (0xD5 :: cmd) ((256 - (cmd.length + 1)) % 256) (negByte (runningSum 0 (0xD5 :: cmd))) [0]
    (by simp only [Mock.stream]; exact forceDirection_buildPacket cmd h2)
    (by simp; omega) (by omega) (by simp; omega) hd (negByte_lt _) rfl hsum
  unfold decodeStream
  exact Prod.ext h.1 h.2

theorem C1_round_trip_witness :
    1 ≤ [0x4A, 1, 0].length ∧ [0x4A, 1, 0].length ≤ 254 ∧ Bytes [0x4A, 1, 0]
      ∧ decodeStream (forceDirection (buildPacket [0x4A, 1, 0])) []
          = (Status.SUCCESS, [0x4A, 1, 0]) :=
  ⟨by decide, by decide, by decide,
    C1_round_trip [0x4A, 1, 0] [] (by decide) (by decide) (by decide)⟩

/-- Counterexample to claim C1 as stated. A command body of 255 zero bytes: the length byte
of the built frame wraps to 0, and the forced frame is rejected as `INVALID_FRAME`. -/
theorem C1_counterexample :
    (List.replicate 255 0).length = 255 ∧ Bytes (List.replicate 255 0)
      ∧ decodeStream (forceDirection (buildPacket (List.replicate 255 0))) []
          = (Status.INVALID_FRAME, []) := by
  decide


/-! ## The resynchronisation scan -/

theorem startsAt_drop (s : List Nat) (n j : Nat) :
    startsAt (s.drop n) j = startsAt s (j + n) := by
  simp only [startsAt, List.getD_eq_getElem?_getD, List.getElem?_drop]
  have e0 : n + j = j + n := by omega
  have e1 : n + (j + 1) = j + n + 1 := by omega
  have e2 : n + (j + 2) = j + n + 2 := by omega
  rw [e0, e1, e2]

theorem startsAt_length {s : List Nat} {i : Nat} (h : startsAt s i = true) :
    i + 2 < s.length := by
  by_contra hc
  have : s.length ≤ i + 2 := by omega
  simp [startsAt, List.getD_eq_getElem?_getD, List.getElem?_eq_none this] at h

theorem scan_skip {txn : Transaction} (ht : txn.canRead) (k : Nat) (w : World Mock)
    (hb : Bytes w.dev.rx) (hlen : 4 ≤ w.dev.rx.length)
    (h0 : startsAt w.dev.rx 0 = false) (h1 : startsAt w.dev.rx 1 = false) :
    scanPreamble mockTransport txn (k + 1) w
        = scanPreamble mockTransport txn k
            (txn.read mockTransport 1 (txn.read mockTransport 3 w).2.2).2.2
      ∧ (txn.read mockTransport 1 (txn.read mockTransport 3 w).2.2).2.2.dev.rx
          = w.dev.rx.drop 4 := by
  obtain ⟨a, b, c, d, rest, hrx⟩ : ∃ a b c d rest, w.dev.rx = a :: b :: c :: d :: rest := by
    match h : w.dev.rx, hlen with
    | a :: b :: c :: d :: rest, _ => exact ⟨a, b, c, d, rest, rfl⟩
    | [], hl => simp [h] at hlen
    | [_], hl => simp [h] at hlen
    | [_, _], hl => simp [h] at hlen
    | [_, _, _], hl => simp [h] at hlen
  obtain ⟨r1, r2, r3⟩ := read_mock ht 3 w (by omega) (hb.take 3)
  simp only [hrx, List.take_succ_cons, List.take_zero, List.drop_succ_cons,
    List.drop_zero] at r2 r3
  obtain ⟨n1, n2, n3⟩ := read_mock ht 1 (txn.read mockTransport 3 w).2.2 (by simp [r3])
    (by rw [r3]; intro x hx; simp at hx; exact hb x (by simp [hrx, hx]))
  simp only [r3, List.take_succ_cons, List.take_zero, List.drop_succ_cons,
    List.drop_zero] at n2 n3
  have i0 : isStart a b c = false := by simpa [startsAt, hrx, isStart] using h0
  have i1 : isStart b c d = false := by simpa [startsAt, hrx, isStart] using h1
  refine ⟨?_, by simp [n3, hrx]⟩
  conv_lhs => unfold scanPreamble
  simp [r1, r2, n1, n2, i0, i1]

theorem scan_shift {txn : Transaction} (ht : txn.canRead) (k : Nat) (w : World Mock)
    (a : Nat) (rest : List Nat) (ha : a < 256) (hrx : w.dev.rx = a :: 0 :: 0 :: 255 :: rest) :
    (scanPreamble mockTransport txn (k + 1) w).1 = Scan.found
      ∧ (scanPreamble mockTransport txn (k + 1) w).2.dev.rx = rest := by
  obtain ⟨r1, r2, r3⟩ := read_mock ht 3 w (by simp [hrx])
    (by intro b hb; simp [hrx] at hb; omega)
  simp only [hrx, List.take_succ_cons, List.take_zero, List.drop_succ_cons,
    List.drop_zero] at r2 r3
  obtain ⟨n1, n2, n3⟩ := read_mock ht 1 (txn.read mockTransport 3 w).2.2 (by simp [r3])
    (by rw [r3]; intro x hx; simp at hx; omega)
  simp only [r3, List.take_succ_cons, List.take_zero, List.drop_succ_cons,
    List.drop_zero] at n2 n3
  unfold scanPreamble
  simp [r1, r2, n1, n2, n3, isStart]


/-- The scan locks on a start sequence whose first occurrence is at an offset `4 i + r`
with `r ≤ 1`, provided `i` iterations are left. -/
theorem scan_locks {txn : Transaction} (ht : txn.canRead) (r : Nat) (hr : r ≤ 1) :
    ∀ (i fuel : Nat) (w : World Mock), i < fuel → Bytes w.dev.rx →
      startsAt w.dev.rx (4 * i + r) = true →
      (∀ j, j < 4 * i + r → startsAt w.dev.rx j = false) →
      (scanPreamble mockTransport txn fuel w).1 = Scan.found
        ∧ (scanPreamble mockTransport txn fuel w).2.dev.rx = w.dev.rx.drop (4 * i + r + 3) := by
  intro i
  induction i with
  | zero =>
    intro fuel w hf hb hs hfirst
    obtain ⟨k, rfl⟩ : ∃ k, fuel = k + 1 := ⟨fuel - 1, by omega⟩
    have hl := startsAt_length hs
    rcases Nat.le_one_iff_eq_zero_or_eq_one.1 hr with rfl | rfl
    · obtain ⟨a, b, c, rest, hrx⟩ : ∃ a b c rest, w.dev.rx = a :: b :: c :: rest := by
        match h : w.dev.rx, hl with
        | a :: b :: c :: rest, _ => exact ⟨a, b, c, rest, rfl⟩
        | [], hl => simp at hl
        | [_], hl => simp at hl
        | [_, _], hl => simp at hl
      simp [startsAt, hrx] at hs
      obtain ⟨⟨rfl, rfl⟩, rfl⟩ := hs
      have := scan_here ht k w rest hrx
      simpa [hrx] using this
    · obtain ⟨a, b, c, d, rest, hrx⟩ : ∃ a b c d rest, w.dev.rx = a :: b :: c :: d :: rest := by
        match h : w.dev.rx, hl with
        | a :: b :: c :: d :: rest, _ => exact ⟨a, b, c, d, rest, rfl⟩
        | [], hl => simp at hl
        | [_], hl => simp at hl
        | [_, _], hl => simp at hl
        | [_, _, _], hl => simp at hl
      simp [startsAt, hrx] at hs
      obtain ⟨⟨rfl, rfl⟩, rfl⟩ := hs
      have ha : a < 256 := hb a (by simp [hrx])
      have := scan_shift ht k w a rest ha hrx
      simpa [hrx] using this
  | succ i ih =>
    intro fuel w hf hb hs hfirst
    obtain ⟨k, rfl⟩ : ∃ k, fuel = k + 1 := ⟨fuel - 1, by omega⟩
    have hl := startsAt_length hs
    obtain ⟨e, hrx⟩ := scan_skip ht k w hb (by omega) (hfirst 0 (by omega)) (hfirst 1 (by omega))
    rw [e]
    have h := ih k _ (by omega) (by rw [hrx]; exact hb.drop 4)
      (by rw [hrx, startsAt_drop]; rw [← hs]; congr 1; omega)
      (by intro j hj; rw [hrx, startsAt_drop]; exact hfirst _ (by omega))
    rw [hrx, List.drop_drop] at h
    refine ⟨h.1, ?_⟩
    rw [h.2]
    congr 1
    omega

/-- The scan gives up when none of the windows it looks at holds the start sequence. -/
theorem scan_missing {txn : Transaction} (ht : txn.canRead) :
    ∀ (fuel : Nat) (w : World Mock), Bytes w.dev.rx → 4 * fuel ≤ w.dev.rx.length →
      (∀ j, j < 4 * fuel → j % 4 ≤ 1 → startsAt w.dev.rx j = false) →
      (scanPreamble mockTransport txn fuel w).1 = Scan.missing
        ∧ (scanPreamble mockTransport txn fuel w).2.dev.rx = w.dev.rx.drop (4 * fuel) := by
  intro fuel
  induction fuel with
  | zero =>
    intro w _ _ _
    simp [scanPreamble]
  | succ k ih =>
    intro w hb hl hno
    obtain ⟨e, hrx⟩ := scan_skip ht k w hb (by omega) (hno 0 (by omega) (by omega))
      (hno 1 (by omega) (by omega))
    rw [e]
    have h := ih _ (by rw [hrx]; exact hb.drop 4) (by rw [hrx]; simp; omega)
      (by intro j hj hm; rw [hrx, startsAt_drop]; exact hno _ (by omega) (by omega))
    rw [hrx, List.drop_drop] at h
    refine ⟨h.1, ?_⟩
    rw [h.2]
    congr 1
    omega


/-! ## Decoding depends on the pending bytes only -/

theorem parseLength_congr (txn : Transaction) {w1 w2 : World Mock}
    (h : w1.dev.rx = w2.dev.rx) :
    (parseLength mockTransport txn w1).1 = (parseLength mockTransport txn w2).1
      ∧ (parseLength mockTransport txn w1).2.dev.rx
          = (parseLength mockTransport txn w2).2.dev.rx := by
  obtain ⟨a1, a2, a3⟩ := read_mock_congr txn 2 h
  obtain ⟨b1, b2, b3⟩ := read_mock_congr txn 3 a3
  unfold parseLength
  simp only [a1, a2, b1, b2]
  split
  · exact ⟨rfl, a3⟩
  · split
    · split
      · exact ⟨rfl, b3⟩
      · split <;> exact ⟨rfl, b3⟩
    · split <;> exact ⟨rfl, a3⟩

theorem parseBody_congr (txn : Transaction) (len : Nat) (buffer : List Nat)
    {w1 w2 : World Mock} (h : w1.dev.rx = w2.dev.rx) :
    (parseBody mockTransport txn len buffer w1).1 = (parseBody mockTransport txn len buffer w2).1
      ∧ (parseBody mockTransport txn len buffer w1).2.1
          = (parseBody mockTransport txn len buffer w2).2.1 := by
  obtain ⟨a1, a2, a3⟩ := read_mock_congr txn len h
  obtain ⟨b1, b2, b3⟩ := read_mock_congr txn 1 a3
  unfold parseBody
  simp only [a1, a2, b1, b2]
  split
  · exact ⟨rfl, rfl⟩
  · split
    · exact ⟨rfl, rfl⟩
    · split
      · exact ⟨rfl, rfl⟩
      · split
        · exact ⟨rfl, rfl⟩
        · split
          · exact ⟨rfl, rfl⟩
          · split <;> exact ⟨rfl, rfl⟩

/-- Two runs that both lock on and are then left with the same pending bytes return the
same status and the same buffer. -/
theorem parseResponse_congr (txn : Transaction) (buffer : List Nat) {w1 w2 : World Mock}
    (h1 : (scanPreamble mockTransport txn MAX_SCAN w1).1 = Scan.found)
    (h2 : (scanPreamble mockTransport txn MAX_SCAN w2).1 = Scan.found)
    (h : (scanPreamble mockTransport txn MAX_SCAN w1).2.dev.rx
          = (scanPreamble mockTransport txn MAX_SCAN w2).2.dev.rx) :
    (parseResponse mockTransport txn buffer w1).1 = (parseResponse mockTransport txn buffer w2).1
      ∧ (parseResponse mockTransport txn buffer w1).2.1
          = (parseResponse mockTransport txn buffer w2).2.1 := by
  obtain ⟨l1, l2⟩ := parseLength_congr txn h
  cases hl : (parseLength mockTransport txn (scanPreamble mockTransport txn MAX_SCAN w1).2).1 with
  | error st =>
    have e1 := parseResponse_of_lenError mockTransport txn buffer w1 st h1 hl
    have e2 := parseResponse_of_lenError mockTransport txn buffer w2 st h2 (l1 ▸ hl)
    exact ⟨e1.1.trans e2.1.symm, e1.2.trans e2.2.symm⟩
  | ok len =>
    rw [parseResponse_of_found mockTransport txn buffer w1 len h1 hl,
      parseResponse_of_found mockTransport txn buffer w2 len h2 (l1 ▸ hl)]
    exact parseBody_congr txn len buffer l2

/-- Claim C3, as amended. Let the first occurrence of `00 00 FF` in a stream of bytes be at
offset `k`, after `k` noise bytes. If `k ≤ 37` and `k mod 4` is 0 or 1, `parseResponse`
returns the status and buffer it returns for the stream without the noise; if `k > 37`, it
returns `INVALID_FRAME` and leaves the buffer unchanged. -/
theorem C3_resync (noise s buffer : List Nat) (hb : Bytes (noise ++ s))
    (hstart : startsAt (noise ++ s) noise.length = true)
    (hfirst : ∀ j, j < noise.length → startsAt (noise ++ s) j = false) :
    (noise.length ≤ 37 → noise.length % 4 ≤ 1 →
        decodeStream (noise ++ s) buffer = decodeStream s buffer)
      ∧ (37 < noise.length →
        decodeStream (noise ++ s) buffer = (Status.INVALID_FRAME, buffer)) := by
  constructor
  · intro hk hm
    have hs0 : startsAt s 0 = true := by
      have := startsAt_drop (noise ++ s) noise.length 0
      rw [List.drop_left' rfl] at this
      rw [this, Nat.zero_add]
      exact hstart
    have hbs : Bytes s := fun b hb' => hb b (List.mem_append_right _ hb')
    have hk4 : 4 * (noise.length / 4) + noise.length % 4 = noise.length := by omega
    have A := scan_locks canRead_readModeTxn (noise.length % 4) hm (noise.length / 4) MAX_SCAN
      { dev := Mock.stream (noise ++ s), trace := [] } (by unfold MAX_SCAN; omega) hb
      (by rw [hk4]; exact hstart) (by rw [hk4]; exact hfirst)
    have B := scan_locks canRead_readModeTxn 0 (by omega) 0 MAX_SCAN
      { dev := Mock.stream s, trace := [] } (by unfold MAX_SCAN; omega) hbs hs0
      (by intro j hj; omega)
    have hrx : (scanPreamble mockTransport readModeTxn MAX_SCAN
          { dev := Mock.stream (noise ++ s), trace := [] }).2.dev.rx
        = (scanPreamble mockTransport readModeTxn MAX_SCAN
          { dev := Mock.stream s, trace := [] }).2.dev.rx := by
      rw [A.2, B.2, hk4]
      simp only [Mock.stream]
      rw [← List.drop_drop, List.drop_left' rfl]
    have C := parseResponse_congr readModeTxn buffer A.1 B.1 hrx
    unfold decodeStream
    exact Prod.ext C.1 C.2
  · intro hk
    have hl := startsAt_length hstart
    have M := scan_missing canRead_readModeTxn MAX_SCAN
      { dev := Mock.stream (noise ++ s), trace := [] } hb
      (by simp only [Mock.stream, MAX_SCAN]; omega)
      (by intro j hj _; exact hfirst j (by unfold MAX_SCAN at hj; omega))
    have R := parseResponse_of_missing mockTransport readModeTxn buffer _ M.1
    unfold decodeStream
    exact Prod.ext R.1 R.2


theorem C3_resync_witness :
    decodeStream ([9, 8, 7, 6, 5] ++ sampleFrame) [] = decodeStream sampleFrame []
      ∧ decodeStream (List.replicate 38 0x55 ++ sampleFrame) [] = (Status.INVALID_FRAME, []) :=
  ⟨(C3_resync [9, 8, 7, 6, 5] sampleFrame [] (by decide) (by decide) (by decide)).1
      (by decide) (by decide),
   (C3_resync (List.replicate 38 0x55) sampleFrame [] (by decide) (by decide) (by decide)).2
      (by decide)⟩

/-- Counterexample to claim C3 as stated. Two noise bytes before a valid frame (first `00 00
FF` at offset 2): the frame is not found, neither when the stream ends with the frame nor
when idle bytes follow it. Eight noise bytes (first `00 00 FF` at offset 8): the frame is
found and decoded. -/
theorem C3_counterexample :
    decodeStream sampleFrame [] = (Status.SUCCESS, [0x03])
      ∧ startsAt ([1, 2] ++ sampleFrame) 2 = true
      ∧ (∀ j, j < 2 → startsAt ([1, 2] ++ sampleFrame) j = false)
      ∧ decodeStream ([1, 2] ++ sampleFrame) [] = (Status.TRANSPORT_ERROR, [])
      ∧ decodeStream ([1, 2] ++ sampleFrame ++ List.replicate 30 0x55) []
          = (Status.INVALID_FRAME, [])
      ∧ startsAt ([1, 2, 3, 4, 5, 6, 7, 8] ++ sampleFrame) 8 = true
      ∧ (∀ j, j < 8 → startsAt ([1, 2, 3, 4, 5, 6, 7, 8] ++ sampleFrame) j = false)
      ∧ decodeStream ([1, 2, 3, 4, 5, 6, 7, 8] ++ sampleFrame) [] = (Status.SUCCESS, [0x03]) := by
  decide


theorem parseBody_tfi {txn : Transaction} (ht : txn.canRead) (w : World Mock)
    (buffer : List Nat) (len : Nat) (hlen : 1 < len) (hrx : len + 1 ≤ w.dev.rx.length)
    (hb : Bytes w.dev.rx) (htfi : w.dev.rx.getD 0 0 ≠ PN532_PN532TOHOST) :
    (parseBody mockTransport txn len buffer w).1 = Status.INVALID_FRAME
      ∧ (parseBody mockTransport txn len buffer w).2.1 = buffer := by
  obtain ⟨f1, f2, f3⟩ := read_mock ht len w (by omega) (hb.take len)
  obtain ⟨d1, d2, d3⟩ := read_mock ht 1 (txn.read mockTransport len w).2.2
    (by rw [f3]; simp; omega) (by rw [f3]; exact (hb.drop len).take 1)
  have h0 : (List.take len w.dev.rx).getD 0 0 = w.dev.rx.getD 0 0 := by
    simp only [List.getD_eq_getElem?_getD]
    rw [List.getElem?_take_of_lt (by omega)]
  have hl0 : len ≠ 0 := by omega
  have hl1 : len ≠ 1 := by omega
  have htfi2 : ¬ w.dev.rx[0]?.getD 0 = PN532_PN532TOHOST := by
    simpa [List.getD_eq_getElem?_getD] using htfi
  unfold parseBody
  simp only [f1, f2, d1, h0]
  simp [hl0, hl1, htfi2]

/-- Claim C4, as amended. A stream that starts with `00 00 FF LEN LCS`, where `LEN LCS` is
not the extended-length marker `FF FF` and `(LEN + LCS) mod 256 ≠ 0`, is rejected with
`CHECKSUM_ERROR`; in particular, replacing the length checksum of a frame whose length field
is consistent by a different byte gives `CHECKSUM_ERROR`, unless `LEN = FF` and the new byte
is `FF`. -/
theorem C4_length_checksum (len v : Nat) (rest buffer : List Nat) (hlen : len < 256)
    (hv : v < 256) (hstd : ¬ (len = 255 ∧ v = 255)) :
    ((len + v) % 256 ≠ 0 →
        decodeStream (0x00 :: 0x00 :: 0xFF :: len :: v :: rest) buffer
          = (Status.CHECKSUM_ERROR, buffer))
      ∧ (∀ lcs, lcs < 256 → (len + lcs) % 256 = 0 → v ≠ lcs →
        decodeStream ((0x00 :: 0x00 :: 0xFF :: len :: lcs :: rest).set 4 v) buffer
          = (Status.CHECKSUM_ERROR, buffer)) := by
  have key : (len + v) % 256 ≠ 0 →
      decodeStream (0x00 :: 0x00 :: 0xFF :: len :: v :: rest) buffer
        = (Status.CHECKSUM_ERROR, buffer) := by
    intro hbad
    obtain ⟨s1, s2⟩ := scan_here canRead_readModeTxn 9
      { dev := Mock.stream (0 :: 0 :: 255 :: len :: v :: rest), trace := [] } _ rfl
    obtain ⟨l1, _⟩ := parseLength_std canRead_readModeTxn _ len v rest s2 hlen hv hstd
    rw [if_pos hbad] at l1
    have R := parseResponse_of_lenError mockTransport readModeTxn buffer _ _ s1 l1
    unfold decodeStream
    exact Prod.ext R.1 R.2
  refine ⟨key, ?_⟩
  intro lcs hlcs hok hne
  have : (0x00 :: 0x00 :: 0xFF :: len :: lcs :: rest).set 4 v
      = 0x00 :: 0x00 :: 0xFF :: len :: v :: rest := by simp
  rw [this]
  exact key (by omega)

theorem C4_length_checksum_witness :
    decodeStream (0x00 :: 0x00 :: 0xFF :: 0x02 :: 0xFD :: [0xD5, 0x03, 0x28, 0x00]) []
        = (Status.CHECKSUM_ERROR, [])
      ∧ decodeStream (sampleFrame.set 4 0x00) [] = (Status.CHECKSUM_ERROR, []) :=
  ⟨(C4_length_checksum 0x02 0xFD [0xD5, 0x03, 0x28, 0x00] [] (by decide) (by decide)
      (by decide)).1 (by decide),
   (C4_length_checksum 0x02 0x00 [0xD5, 0x03, 0x28, 0x00] [] (by decide) (by decide)
      (by decide)).2 0xFE (by decide) (by decide) (by decide)⟩

/-- A stream whose extended length field is consistent but whose first data byte is not
the device-to-host direction byte is rejected as `INVALID_FRAME`. -/
theorem decode_ext_tfi (hi lo lcs : Nat) (more buffer : List Nat) (hhi : hi < 256)
    (hlo : lo < 256) (hlcs : lcs < 256) (hsum : (hi + lo + lcs) % 256 = 0)
    (hlen : 1 < hi * 256 + lo) (hl : hi * 256 + lo + 1 ≤ more.length) (hb : Bytes more)
    (h0 : more.getD 0 0 ≠ PN532_PN532TOHOST) :
    decodeStream (0x00 :: 0x00 :: 0xFF :: 0xFF :: 0xFF :: hi :: lo :: lcs :: more) buffer
      = (Status.INVALID_FRAME, buffer) := by
  obtain ⟨s1, s2⟩ := scan_here canRead_readModeTxn 9
    { dev := Mock.stream (0 :: 0 :: 255 :: 255 :: 255 :: hi :: lo :: lcs :: more), trace := [] }
    _ rfl
  obtain ⟨l1, l2⟩ := parseLength_ext canRead_readModeTxn _ hi lo lcs more s2 hhi hlo hlcs
  rw [if_neg (by simp [hsum])] at l1
  have l3 := l2 hsum
  have R := parseBody_tfi canRead_readModeTxn _ buffer (hi * 256 + lo) hlen
    (by rw [l3]; exact hl) (by rw [l3]; exact hb) (by rw [l3]; exact h0)
  unfold decodeStream
  rw [parseResponse_of_found mockTransport readModeTxn buffer _ (hi * 256 + lo) s1 l1]
  exact Prod.ext R.1 R.2

/-- Counterexample to claim C4 as stated. In the valid standard frame `frame255` (LEN = FF,
LCS = 01) the length checksum is replaced by `FF`: the two bytes now read as the
extended-length marker, the next three data bytes `D5 2B 00` pass as an extended length
field, and the result is not `CHECKSUM_ERROR`: the read of 54571 data bytes fails when the
stream ends with the frame, and the direction byte is rejected when enough idle bytes
follow. -/
theorem C4_counterexample :
    decodeStream frame255 [] = (Status.SUCCESS, 0x2B :: List.replicate 253 0)
      ∧ frame255.getD 3 0 = 0xFF ∧ frame255.getD 4 0 = 0x01
      ∧ decodeStream (frame255.set 4 0xFF) [] = (Status.TRANSPORT_ERROR, [])
      ∧ decodeStream (frame255.set 4 0xFF ++ List.replicate 54400 0) []
          = (Status.INVALID_FRAME, []) := by
  refine ⟨by decide, by decide, by decide, by decide, ?_⟩
  have h1 : frame255.set 4 0xFF
      = [0x00, 0x00, 0xFF, 0xFF, 0xFF, 0xD5, 0x2B, 0x00] ++ List.replicate 254 0 := by decide
  rw [h1, List.append_assoc, List.append_replicate_replicate]
  simp only [List.cons_append, List.nil_append]
  have hb : Bytes (List.replicate (254 + 54400) 0) := by
    intro b hm
    rw [List.eq_of_mem_replicate hm]
    decide
  exact decode_ext_tfi 0xD5 0x2B 0x00 _ [] (by decide) (by decide) (by decide) (by decide)
    (by decide) (by rw [List.length_replicate]; decide) hb
    (by rw [show (254 + 54400 : Nat) = 54653 + 1 from rfl, List.replicate_succ]; decide)


/-- Claim C5. An extended frame `00 00 FF FF FF hi lo lcs, d, dcs, 00` whose data `d` (1 to
65535 bytes, first byte `D5`) has length `hi * 256 + lo`, with consistent length checksum
and data checksum, decodes to `SUCCESS` with `d` minus its first byte; for 255 data bytes
the standard encoding `FF 01` of the same data decodes to the same buffer. -/
theorem C5_extended_length (d buffer : List Nat) (lcs dcs : Nat) (h1 : 1 ≤ d.length)
    (h2 : d.length ≤ 65535) (hd : Bytes d) (htfi : d.head? = some 0xD5)
    (hlcs : lcs < 256) (hdcs : dcs < 256)
    (hl : (d.length / 256 + d.length % 256 + lcs) % 256 = 0)
    (hsum : (d.sum + dcs) % 256 = 0) :
    decodeStream ([0x00, 0x00, 0xFF, 0xFF, 0xFF, d.length / 256, d.length % 256, lcs] ++ d
        ++ [dcs, 0x00]) buffer = (Status.SUCCESS, d.tail)
      ∧ (d.length = 255 →
          lcs = 0x01
          ∧ decodeStream ([0x00, 0x00, 0xFF, 0xFF, 0x01] ++ d ++ [dcs, 0x00]) buffer
              = (Status.SUCCESS, d.tail)) := by
  have hs : (byteSum d + dcs) % 256 = 0 := by
    unfold byteSum
    omega
  constructor
  · have h := decode_ext canRead_readModeTxn
      { dev := Mock.stream ([0x00, 0x00, 0xFF, 0xFF, 0xFF, d.length / 256, d.length % 256, lcs]
          ++ d ++ [dcs, 0x00]), trace := [] }
      buffer d lcs dcs [0] (by simp [Mock.stream]) (by omega) hlcs hl hd hdcs htfi hs
    unfold decodeStream
    exact Prod.ext h.1 h.2
  · intro h255
    have hlcs1 : lcs = 1 := by omega
    refine ⟨hlcs1, ?_⟩
    have h := decode_std canRead_readModeTxn
      { dev := Mock.stream ([0x00, 0x00, 0xFF, 0xFF, 0x01] ++ d ++ [dcs, 0x00]), trace := [] }
      buffer d 1 dcs [0] (by simp [Mock.stream, h255]) (by omega) (by omega) (by omega)
      hd hdcs htfi hs
    unfold decodeStream
    exact Prod.ext h.1 h.2

theorem C5_extended_length_witness :
    decodeStream ([0x00, 0x00, 0xFF, 0xFF, 0xFF, 0x00, 0xFF, 0x01]
        ++ (0xD5 :: 0x2B :: List.replicate 253 0) ++ [0x00, 0x00]) []
        = (Status.SUCCESS, 0x2B :: List.replicate 253 0)
      ∧ decodeStream ([0x00, 0x00, 0xFF, 0xFF, 0x01]
        ++ (0xD5 :: 0x2B :: List.replicate 253 0) ++ [0x00, 0x00]) []
        = (Status.SUCCESS, 0x2B :: List.replicate 253 0) :=
  ⟨(C5_extended_length (0xD5 :: 0x2B :: List.replicate 253 0) [] 0x01 0x00 (by decide)
      (by decide) (by decide) (by decide) (by decide) (by decide) (by decide) (by decide)).1,
   ((C5_extended_length (0xD5 :: 0x2B :: List.replicate 253 0) [] 0x01 0x00 (by decide)
      (by decide) (by decide) (by decide) (by decide) (by decide) (by decide) (by decide)).2
      (by decide)).2⟩


/-! ## `waitForAck` -/

theorem ackMismatch_iff (b : List Nat) (hlen : b.length = 6) :
    ackMismatch b = false ↔ b = EXPECTED_ACK := by
  match b, hlen with
  | [b0, b1, b2, b3, b4, b5], _ =>
    have hr : List.range 6 = [0, 1, 2, 3, 4, 5] := by decide
    simp [ackMismatch, EXPECTED_ACK, hr]

theorem ackMismatch_of_byte (b : List Nat) (i : Nat) (hi : i < 6)
    (h : b.getD i 0 ≠ EXPECTED_ACK.getD i 0) : ackMismatch b = true := by
  unfold ackMismatch
  rw [List.any_eq_true]
  exact ⟨i, List.mem_range.2 hi, by simpa using h⟩

section Ack
variable {σ : Type}

/-- The result of `waitForAck` when the guard is usable, the device becomes ready and
both `prepareRead` and the six-byte `readChunk` succeed. -/
theorem waitForAck_read (tp : Transport σ) (txn : Transaction) (t : Nat) (w : World σ)
    (hv : txn.valid = true) (ht : txn.transport.isSome = true)
    (hready : (tp.waitReady t (tp.endTransaction w.dev)).1 = true)
    (hprep : (tp.prepareRead (tp.waitReady t (tp.endTransaction w.dev)).2).1 = Status.SUCCESS)
    (hread : (tp.readChunk 6 (tp.prepareRead (tp.waitReady t (tp.endTransaction w.dev)).2).2).1
      = Status.SUCCESS) :
    (txn.waitForAck tp t w).1
        = (if ackMismatch (fill 6 (tp.readChunk 6
              (tp.prepareRead (tp.waitReady t (tp.endTransaction w.dev)).2).2).2.1)
           then Status.INVALID_FRAME else Status.SUCCESS)
      ∧ (txn.waitForAck tp t w).2.1.valid
        = !ackMismatch (fill 6 (tp.readChunk 6
              (tp.prepareRead (tp.waitReady t (tp.endTransaction w.dev)).2).2).2.1) := by
  have h2 : txn.transport ≠ none := by
    intro h
    simp [h] at ht
  unfold Transaction.waitForAck
  rw [if_neg (by simp [hv, h2])]
  simp only [callEndTransaction, callWaitReady, callPrepareRead, callReadChunk, hready,
    hprep, hread]
  cases hm : ackMismatch (fill 6 (tp.readChunk 6
      (tp.prepareRead (tp.waitReady t (tp.endTransaction w.dev)).2).2).2.1) <;> simp [hv]

/-- Claim C6. On a usable guard, when `waitReady` reports ready and `prepareRead` and the
six-byte `readChunk` succeed, `waitForAck` returns `SUCCESS` and leaves the guard valid
exactly when the six bytes read are `00 00 FF 00 FF 00`; when they differ from that
sequence, in particular in one byte, it returns `INVALID_FRAME` and the guard is invalid
afterwards. -/
theorem C6_ack_validation (tp : Transport σ) (txn : Transaction) (t : Nat) (w : World σ)
    (hv : txn.valid = true) (ht : txn.transport.isSome = true)
    (hready : (tp.waitReady t (tp.endTransaction w.dev)).1 = true)
    (hprep : (tp.prepareRead (tp.waitReady t (tp.endTransaction w.dev)).2).1 = Status.SUCCESS)
    (hread : (tp.readChunk 6 (tp.prepareRead (tp.waitReady t (tp.endTransaction w.dev)).2).2).1
      = Status.SUCCESS) (ack : List Nat)
    (hack : ack = fill 6 (tp.readChunk 6
      (tp.prepareRead (tp.waitReady t (tp.endTransaction w.dev)).2).2).2.1) :
    (((txn.waitForAck tp t w).1 = Status.SUCCESS ∧ (txn.waitForAck tp t w).2.1.valid = true)
        ↔ ack = [0x00, 0x00, 0xFF, 0x00, 0xFF, 0x00])
      ∧ (ack ≠ [0x00, 0x00, 0xFF, 0x00, 0xFF, 0x00] →
          (txn.waitForAck tp t w).1 = Status.INVALID_FRAME
            ∧ (txn.waitForAck tp t w).2.1.valid = false)
      ∧ (∀ i, i < 6 → ack.getD i 0 ≠ [0x00, 0x00, 0xFF, 0x00, 0xFF, 0x00].getD i 0 →
          (txn.waitForAck tp t w).1 = Status.INVALID_FRAME
            ∧ (txn.waitForAck tp t w).2.1.valid = false) := by
  obtain ⟨r1, r2⟩ := waitForAck_read tp txn t w hv ht hready hprep hread
  rw [← hack] at r1 r2
  have hlen : ack.length = 6 := by rw [hack]; exact fill_length 6 _
  have hiff := ackMismatch_iff ack hlen
  have hE : EXPECTED_ACK = [0x00, 0x00, 0xFF, 0x00, 0xFF, 0x00] := rfl
  rw [hE] at hiff
  have hbad : ackMismatch ack = true →
      (txn.waitForAck tp t w).1 = Status.INVALID_FRAME
        ∧ (txn.waitForAck tp t w).2.1.valid = false := by
    intro hm
    rw [r1, r2, hm]
    exact ⟨rfl, rfl⟩
  refine ⟨⟨?_, ?_⟩, ?_, ?_⟩
  · rintro ⟨_, h2⟩
    apply hiff.1
    rw [r2] at h2
    simpa using h2
  · intro h
    have hm := hiff.2 h
    rw [r1, r2, hm]
    exact ⟨rfl, rfl⟩
  · intro hne
    apply hbad
    cases hm : ackMismatch ack
    · exact absurd (hiff.1 hm) hne
    · rfl
  · intro i hi hd
    exact hbad (ackMismatch_of_byte ack i hi (by rw [hE]; exact hd))

end Ack

theorem C6_ack_validation_witness :
    ((activeTxn.waitForAck mockTransport 100
          { dev := Mock.acking [0x00, 0x00, 0xFF, 0x00, 0xFF, 0x00], trace := [] }).1
        = Status.SUCCESS
      ∧ (activeTxn.waitForAck mockTransport 100
          { dev := Mock.acking [0x00, 0x00, 0xFF, 0x00, 0xFF, 0x00], trace := [] }).2.1.valid
        = true)
    ∧ ((activeTxn.waitForAck mockTransport 100
          { dev := Mock.acking [0x00, 0x00, 0xFF, 0x01, 0xFF, 0x00], trace := [] }).1
        = Status.INVALID_FRAME
      ∧ (activeTxn.waitForAck mockTransport 100
          { dev := Mock.acking [0x00, 0x00, 0xFF, 0x01, 0xFF, 0x00], trace := [] }).2.1.valid
        = false) :=
  ⟨(C6_ack_validation mockTransport activeTxn 100
      { dev := Mock.acking [0x00, 0x00, 0xFF, 0x00, 0xFF, 0x00], trace := [] }
      (by decide) (by decide) (by decide) (by decide) (by decide)
      [0x00, 0x00, 0xFF, 0x00, 0xFF, 0x00] (by decide)).1.2 rfl,
   (C6_ack_validation mockTransport activeTxn 100
      { dev := Mock.acking [0x00, 0x00, 0xFF, 0x01, 0xFF, 0x00], trace := [] }
      (by decide) (by decide) (by decide) (by decide) (by decide)
      [0x00, 0x00, 0xFF, 0x01, 0xFF, 0x00] (by decide)).2.1 (by decide)⟩



/-! ## Where the bus is released -/

theorem busReleased_end (tr : List Call) : busReleased (tr ++ [Call.endTransaction]) = true := by
  simp [busReleased, List.foldl_append]

theorem busReleased_wait (tr : List Call) (t : Nat) :
    busReleased (tr ++ [Call.waitReady t]) = busReleased tr := by
  simp [busReleased, List.foldl_append]

section Release
variable {σ : Type}

theorem destroy_valid (tp : Transport σ) (txn : Transaction) (w : World σ)
    (hv : txn.valid = true) (ht : txn.transport.isSome = true) :
    (txn.destroy tp w).trace = w.trace ++ [Call.endTransaction] := by
  simp [Transaction.destroy, hv, ht, callEndTransaction]

theorem destroy_invalid (tp : Transport σ) (txn : Transaction) (w : World σ)
    (hv : txn.valid = false) : txn.destroy tp w = w := by
  simp [Transaction.destroy, hv]

/-- After `waitForAck` on a usable guard: on success the guard is unchanged and the bus
released; on failure the guard is invalid and the bus is released unless the last call
was `prepareRead`. -/
theorem waitForAck_release (tp : Transport σ) (txn : Transaction) (t : Nat) (w : World σ)
    (hv : txn.valid = true) (ht : txn.transport.isSome = true) :
    ((txn.waitForAck tp t w).1 = Status.SUCCESS ∧ (txn.waitForAck tp t w).2.1 = txn
        ∧ busReleased (txn.waitForAck tp t w).2.2.trace = true)
      ∨ ((txn.waitForAck tp t w).1 ≠ Status.SUCCESS ∧ (txn.waitForAck tp t w).2.1.valid = false
        ∧ (busReleased (txn.waitForAck tp t w).2.2.trace = true
          ∨ (txn.waitForAck tp t w).2.2.trace.getLast? = some Call.prepareRead)) := by
  have h2 : txn.transport ≠ none := by
    intro h
    simp [h] at ht
  unfold Transaction.waitForAck
  rw [if_neg (by simp [hv, h2])]
  simp only [callEndTransaction, callWaitReady, callPrepareRead, callReadChunk]
  split
  · right
    refine ⟨by simp, rfl, Or.inl ?_⟩
    rw [busReleased_wait, busReleased_end]
  · split
    · rename_i h3
      right
      exact ⟨h3, rfl, Or.inr (by simp)⟩
    · split
      · rename_i h4
        right
        exact ⟨h4, rfl, Or.inl (busReleased_end _)⟩
      · split
        · right
          exact ⟨by simp, rfl, Or.inl (busReleased_end _)⟩
        · left
          exact ⟨rfl, rfl, busReleased_end _⟩

theorem waitForResponse_release (tp : Transport σ) (txn : Transaction) (t : Nat)
    (w : World σ) (hv : txn.valid = true) (ht : txn.transport.isSome = true)
    (hr : busReleased w.trace = true) :
    ((txn.waitForResponse tp t w).1 = Status.SUCCESS
        ∧ (txn.waitForResponse tp t w).2.1.valid = true
        ∧ (txn.waitForResponse tp t w).2.1.transport.isSome = true)
      ∨ ((txn.waitForResponse tp t w).1 ≠ Status.SUCCESS
        ∧ (txn.waitForResponse tp t w).2.1.valid = false
        ∧ (busReleased (txn.waitForResponse tp t w).2.2.trace = true
          ∨ (txn.waitForResponse tp t w).2.2.trace.getLast? = some Call.prepareRead)) := by
  have h2 : txn.transport ≠ none := by
    intro h
    simp [h] at ht
  unfold Transaction.waitForResponse
  rw [if_neg (by simp [hv, h2])]
  simp only [callWaitReady, callPrepareRead]
  split
  · right
    refine ⟨by simp, rfl, Or.inl ?_⟩
    rw [busReleased_wait, hr]
  · split
    · rename_i h3
      right
      exact ⟨h3, rfl, Or.inr (by simp)⟩
    · left
      exact ⟨rfl, hv, ht⟩

/-- Whenever `begin` returned a valid guard, `transceive` ends with the bus released,
except when the last transport call is a `prepareRead` (which then has failed). -/
theorem transceive_release (tp : Transport σ) (cmd response : List Nat) (t : Nat)
    (w : World σ) (hb : (tp.begin w.dev).1 = true) :
    busReleased (transceive tp cmd response t w).2.2.trace = true
      ∨ (transceive tp cmd response t w).2.2.trace.getLast? = some Call.prepareRead := by
  have hv : (callBegin tp w).1.valid = true := by simpa [callBegin] using hb
  have ht : (callBegin tp w).1.transport.isSome = true := by simp [callBegin]
  unfold transceive
  simp only [hv, Bool.not_true, Bool.false_eq_true, if_false]
  split
  · left
    rw [destroy_valid tp _ _ hv ht]
    exact busReleased_end _
  · rcases waitForAck_release tp (callBegin tp w).1 100
      ((callBegin tp w).1.write tp (buildPacket cmd) (callBegin tp w).2).2 hv ht with
      ⟨a1, a2, a3⟩ | ⟨a1, a2, a3⟩
    · rw [if_neg (by simp [a1])]
      rw [a2]
      rcases waitForResponse_release tp (callBegin tp w).1 t
        ((callBegin tp w).1.waitForAck tp 100
          ((callBegin tp w).1.write tp (buildPacket cmd) (callBegin tp w).2).2).2.2 hv ht a3 with
        ⟨r1, r2, r3⟩ | ⟨r1, r2, r3⟩
      · rw [if_neg (by simp [r1])]
        left
        simp only
        rw [destroy_valid tp _ _ r2 r3]
        exact busReleased_end _
      · rw [if_pos r1]
        simp only
        rw [destroy_invalid tp _ _ r2]
        exact r3
    · rw [if_pos a1]
      simp only
      rw [destroy_invalid tp _ _ a2]
      exact a3

end Release

/-- Claim C7, evaluated at a failing input. `begin` and `writeChunk` succeed, the device
becomes ready and `prepareRead` fails. In `waitForAck` (and likewise in `waitForResponse`)
the failure invalidates the guard without a call of `endTransaction`, so the destructor
makes no call either: the trace ends with `prepareRead` and the bus is not released. When
instead the `readChunk` of `waitForAck` fails, `endTransaction` is called before the return.
-/
theorem C7_bus_left_held :
    (transceive mockTransport [0x02] [] 1000
        { dev := Mock.exchange [true] [Status.TRANSPORT_ERROR] [], trace := [] }).1
        = Status.TRANSPORT_ERROR
      ∧ (transceive mockTransport [0x02] [] 1000
        { dev := Mock.exchange [true] [Status.TRANSPORT_ERROR] [], trace := [] }).2.2.trace
        = [Call.begin, Call.writeChunk [0x00, 0x00, 0xFF, 0x02, 0xFE, 0xD4, 0x02, 0x2A, 0x00],
            Call.endTransaction, Call.waitReady 100, Call.prepareRead]
      ∧ busReleased (transceive mockTransport [0x02] [] 1000
        { dev := Mock.exchange [true] [Status.TRANSPORT_ERROR] [], trace := [] }).2.2.trace
        = false
      ∧ (transceive mockTransport [0x02] [] 1000
        { dev := Mock.exchange [true, true] [Status.SUCCESS, Status.TRANSPORT_ERROR]
            [0x00, 0x00, 0xFF, 0x00, 0xFF, 0x00], trace := [] }).2.2.trace
        = [Call.begin, Call.writeChunk [0x00, 0x00, 0xFF, 0x02, 0xFE, 0xD4, 0x02, 0x2A, 0x00],
            Call.endTransaction, Call.waitReady 100, Call.prepareRead, Call.readChunk 6,
            Call.endTransaction, Call.waitReady 1000, Call.prepareRead]
      ∧ busReleased (transceive mockTransport [0x02] [] 1000
        { dev := Mock.exchange [true, true] [Status.SUCCESS, Status.TRANSPORT_ERROR]
            [0x00, 0x00, 0xFF, 0x00, 0xFF, 0x00], trace := [] }).2.2.trace
        = false
      ∧ (transceive mockTransport [0x02] [] 1000
        { dev := Mock.exchange [true] [Status.SUCCESS] [], trace := [] }).2.2.trace
        = [Call.begin, Call.writeChunk [0x00, 0x00, 0xFF, 0x02, 0xFE, 0xD4, 0x02, 0x2A, 0x00],
            Call.endTransaction, Call.waitReady 100, Call.prepareRead, Call.readChunk 6,
            Call.endTransaction] := by
  decide

/-! ## Invalid guards -/

section Invalid
variable {σ : Type}

theorem step_invalid (tp : Transport σ) (g : Transaction) (op : TxnOp) (w : World σ)
    (hg : g.valid = false) : g.step tp op w = (Status.TRANSPORT_ERROR, g, w) := by
  cases op <;>
    simp [Transaction.step, Transaction.write, Transaction.waitForAck,
      Transaction.waitForResponse, Transaction.read, hg]

theorem run_invalid (tp : Transport σ) (g : Transaction) (ops : List TxnOp) (w : World σ)
    (hg : g.valid = false) :
    g.run tp ops w = (ops.map (fun _ => Status.TRANSPORT_ERROR), g, w) := by
  induction ops with
  | nil => rfl
  | cons op ops ih => simp [Transaction.run, step_invalid tp g op w hg, ih]

theorem waitForAck_fail_invalid (tp : Transport σ) (txn : Transaction) (t : Nat) (w : World σ)
    (hv : txn.valid = true) (ht : txn.transport.isSome = true)
    (h : (txn.waitForAck tp t w).1 ≠ Status.SUCCESS) :
    (txn.waitForAck tp t w).2.1.valid = false := by
  have h2 : txn.transport ≠ none := by
    intro h
    simp [h] at ht
  unfold Transaction.waitForAck at h ⊢
  rw [if_neg (by simp [hv, h2])] at h ⊢
  simp only at h ⊢
  split
  · rfl
  · split
    · rfl
    · split
      · rfl
      · split
        · rfl
        · rename_i h1 h2 h3 h4
          simp [h1, h2, h3, h4] at h

theorem waitForResponse_fail_invalid (tp : Transport σ) (txn : Transaction) (t : Nat)
    (w : World σ) (hv : txn.valid = true) (ht : txn.transport.isSome = true)
    (h : (txn.waitForResponse tp t w).1 ≠ Status.SUCCESS) :
    (txn.waitForResponse tp t w).2.1.valid = false := by
  have h2 : txn.transport ≠ none := by
    intro h
    simp [h] at ht
  unfold Transaction.waitForResponse at h ⊢
  rw [if_neg (by simp [hv, h2])] at h ⊢
  simp only at h ⊢
  split
  · rfl
  · split
    · rfl
    · rename_i h1 h2
      simp [h1, h2] at h

theorem waitForAck_timeout (tp : Transport σ) (txn : Transaction) (t : Nat) (w : World σ)
    (hv : txn.valid = true) (ht : txn.transport.isSome = true)
    (hto : (tp.waitReady t (tp.endTransaction w.dev)).1 = false) :
    (txn.waitForAck tp t w).1 = Status.TIMEOUT
      ∧ (txn.waitForAck tp t w).2.2.trace
          = w.trace ++ [Call.endTransaction, Call.waitReady t] := by
  have h2 : txn.transport ≠ none := by
    intro h
    simp [h] at ht
  unfold Transaction.waitForAck
  rw [if_neg (by simp [hv, h2])]
  simp [callEndTransaction, callWaitReady, hto]

/-- Claim C8. A failing `waitForAck` or `waitForResponse` on a usable guard leaves the guard
invalid; on an invalid guard every sequence of `write`, `waitForAck`, `waitForResponse` and
`read` calls returns `TRANSPORT_ERROR` each time and changes neither the guard nor the world
(so no transport call is made); and when `waitForAck` fails because `waitReady` reports a
timeout, the status is `TIMEOUT` and `endTransaction` was called. -/
theorem C8_invalidation (tp : Transport σ) (txn : Transaction) (t : Nat) (w : World σ)
    (hv : txn.valid = true) (ht : txn.transport.isSome = true) :
    ((txn.waitForAck tp t w).1 ≠ Status.SUCCESS →
        (txn.waitForAck tp t w).2.1.valid = false
          ∧ ∀ ops, (txn.waitForAck tp t w).2.1.run tp ops (txn.waitForAck tp t w).2.2
              = (ops.map (fun _ => Status.TRANSPORT_ERROR), (txn.waitForAck tp t w).2.1,
                  (txn.waitForAck tp t w).2.2))
      ∧ ((txn.waitForResponse tp t w).1 ≠ Status.SUCCESS →
        (txn.waitForResponse tp t w).2.1.valid = false
          ∧ ∀ ops, (txn.waitForResponse tp t w).2.1.run tp ops (txn.waitForResponse tp t w).2.2
              = (ops.map (fun _ => Status.TRANSPORT_ERROR), (txn.waitForResponse tp t w).2.1,
                  (txn.waitForResponse tp t w).2.2))
      ∧ ((tp.waitReady t (tp.endTransaction w.dev)).1 = false →
        (txn.waitForAck tp t w).1 = Status.TIMEOUT
          ∧ (txn.waitForAck tp t w).2.1.valid = false
          ∧ Call.endTransaction ∈ (txn.waitForAck tp t w).2.2.trace) := by
  refine ⟨?_, ?_, ?_⟩
  · intro h
    have hi := waitForAck_fail_invalid tp txn t w hv ht h
    exact ⟨hi, fun ops => run_invalid tp _ ops _ hi⟩
  · intro h
    have hi := waitForResponse_fail_invalid tp txn t w hv ht h
    exact ⟨hi, fun ops => run_invalid tp _ ops _ hi⟩
  · intro hto
    obtain ⟨h1, h2⟩ := waitForAck_timeout tp txn t w hv ht hto
    refine ⟨h1, waitForAck_fail_invalid tp txn t w hv ht (by rw [h1]; decide), ?_⟩
    rw [h2]
    simp

end Invalid

theorem C8_invalidation_witness :
    ((activeTxn.waitForAck mockTransport 100
          { dev := Mock.exchange [] [] [], trace := [] }).1 = Status.TIMEOUT
      ∧ (activeTxn.waitForAck mockTransport 100
          { dev := Mock.exchange [] [] [], trace := [] }).2.1.valid = false
      ∧ Call.endTransaction ∈ (activeTxn.waitForAck mockTransport 100
          { dev := Mock.exchange [] [] [], trace := [] }).2.2.trace)
    ∧ (activeTxn.waitForAck mockTransport 100
          { dev := Mock.exchange [] [] [], trace := [] }).2.1.run mockTransport
          [TxnOp.write [1], TxnOp.waitForAck 100, TxnOp.waitForResponse 1000, TxnOp.read 3]
          (activeTxn.waitForAck mockTransport 100
            { dev := Mock.exchange [] [] [], trace := [] }).2.2
        = ([Status.TRANSPORT_ERROR, Status.TRANSPORT_ERROR, Status.TRANSPORT_ERROR,
              Status.TRANSPORT_ERROR],
            (activeTxn.waitForAck mockTransport 100
              { dev := Mock.exchange [] [] [], trace := [] }).2.1,
            (activeTxn.waitForAck mockTransport 100
              { dev := Mock.exchange [] [] [], trace := [] }).2.2)
    ∧ (activeTxn.waitForResponse mockTransport 1000
          { dev := Mock.exchange [true] [] [], trace := [] }).2.1.valid = false :=
  ⟨(C8_invalidation mockTransport activeTxn 100 { dev := Mock.exchange [] [] [], trace := [] }
      (by decide) (by decide)).2.2 (by decide),
   ((C8_invalidation mockTransport activeTxn 100 { dev := Mock.exchange [] [] [], trace := [] }
      (by decide) (by decide)).1 (by decide)).2 _,
   ((C8_invalidation mockTransport activeTxn 1000
      { dev := Mock.exchange [true] [] [], trace := [] }
      (by decide) (by decide)).2.1 (by decide)).1⟩


/-! ## Status and outputs of the public operations -/

/-- Claim C9, evaluated at a failing input. `InDataExchange` is called with a response
vector that still holds `[0x00]` and the device never becomes ready: the exchange fails with
`TIMEOUT` in `waitForAck`, but `InDataExchange` returns `INVALID_FRAME`, because it inspects
`response[0]` without looking at the status first. `InCommunicateThru`, on the same input,
returns `TIMEOUT`. -/
theorem C9_status_replaced :
    (transceive mockTransport ([PN532_COMMAND_INDATAEXCHANGE, 0x01] ++ [0xAA]) [0x00] 1000
        { dev := Mock.exchange [] [] [], trace := [] }).1 = Status.TIMEOUT
      ∧ (Frontend.InDataExchange mockTransport [0xAA] [0x00] 1000
          { dev := Mock.exchange [] [] [], trace := [] }).1 = Status.INVALID_FRAME
      ∧ (Frontend.InDataExchange mockTransport [0xAA] [0x00] 1000
          { dev := Mock.exchange [] [] [], trace := [] }).2.1 = [0x00]
      ∧ (Frontend.InDataExchange mockTransport [0xAA] [0x00] 1000
          { dev := Mock.exchange [] [] [], trace := [] }).2.2.trace
        = [Call.begin,
            Call.writeChunk [0x00, 0x00, 0xFF, 0x04, 0xFC, 0xD4, 0x40, 0x01, 0xAA, 0x41, 0x00],
            Call.endTransaction, Call.waitReady 100]
      ∧ (Frontend.InCommunicateThru mockTransport [0xAA] [0x00] 1000
          { dev := Mock.exchange [] [] [], trace := [] }).1 = Status.TIMEOUT := by
  decide

section Operations
variable {σ : Type}

/-- Every operation other than `InDataExchange` returns the status of a failed
exchange unchanged. -/
theorem status_propagates (tp : Transport σ) (fe : Frontend) (w : World σ) :
    ((transceive tp [PN532_COMMAND_SAMCONFIGURATION, 0x01, 0x14, 0x01] fe.packetBuffer 1000 w).1
          ≠ Status.SUCCESS →
        (fe.SAMConfig tp w).1
          = (transceive tp [PN532_COMMAND_SAMCONFIGURATION, 0x01, 0x14, 0x01]
              fe.packetBuffer 1000 w).1)
      ∧ (∀ cfgItem confData,
        (fe.RFConfiguration tp cfgItem confData w).1
          = (transceive tp ([PN532_COMMAND_RFCONFIGURATION, cfgItem] ++ confData)
              fe.packetBuffer 1000 w).1)
      ∧ (∀ target,
        (fe.InRelease tp target w).1
          = (transceive tp [PN532_COMMAND_INRELEASE, target] fe.packetBuffer 1000 w).1)
      ∧ (∀ target,
        (transceive tp [PN532_COMMAND_INSELECT, target] fe.packetBuffer 1000 w).1
            ≠ Status.SUCCESS →
        (fe.InSelect tp target w).1
          = (transceive tp [PN532_COMMAND_INSELECT, target] fe.packetBuffer 1000 w).1)
      ∧ (∀ response,
        (Frontend.GetGeneralStatus tp response w).1
          = (transceive tp [PN532_COMMAND_GETGENERALSTATUS] response 1000 w).1)
      ∧ (∀ a b,
        (fe.PowerDown tp a b w).1
          = (transceive tp [PN532_COMMAND_POWERDOWN, a, b] fe.packetBuffer 1000 w).1)
      ∧ (∀ baud out timeout,
        (transceive tp [PN532_COMMAND_INLISTPASSIVETARGET, 1, baud] [] timeout w).1
            ≠ Status.SUCCESS →
        (Frontend.InListPassiveTarget tp baud out timeout w).1
          = (transceive tp [PN532_COMMAND_INLISTPASSIVETARGET, 1, baud] [] timeout w).1)
      ∧ (∀ send response timeout,
        (Frontend.InCommunicateThru tp send response timeout w).1
          = (transceive tp ([PN532_COMMAND_INCOMMUNICATETHRU] ++ send) response timeout w).1)
      ∧ (∀ reg response,
        (Frontend.ReadRegister tp reg response w).1
          = (transceive tp ([PN532_COMMAND_READREGISTER] ++ reg) response 1000 w).1)
      ∧ (∀ data,
        (fe.WriteRegister tp data w).1
          = (transceive tp ([PN532_COMMAND_WRITEREGISTER] ++ data) fe.packetBuffer 1000 w).1) := by
  refine ⟨fun _ => rfl, fun _ _ => rfl, fun _ => rfl, ?_, fun _ => rfl, fun _ _ => rfl, ?_,
    fun _ _ _ => rfl, fun _ _ => rfl, fun _ => rfl⟩
  · intro target h
    simp [Frontend.InSelect, Frontend.transceiveScratch, h]
  · intro baud out timeout h
    simp [Frontend.InListPassiveTarget, h]

theorem parseBody_keeps (tp : Transport σ) (txn : Transaction) (len : Nat)
    (buffer : List Nat) (w : World σ)
    (h : (parseBody tp txn len buffer w).1 ≠ Status.SUCCESS) :
    (parseBody tp txn len buffer w).2.1 = buffer := by
  unfold parseBody at h ⊢
  simp only at h ⊢
  split
  · rfl
  · split
    · rfl
    · split
      · rfl
      · split
        · rfl
        · split
          · rfl
          · split
            · rfl
            · rename_i h1 h2 h3 h4 h5 h6
              rw [if_neg h1, if_neg h2, if_neg h3, if_neg h4, if_neg h5, if_neg h6] at h
              exact absurd rfl h

theorem parseResponse_keeps (tp : Transport σ) (txn : Transaction) (buffer : List Nat)
    (w : World σ) (h : (parseResponse tp txn buffer w).1 ≠ Status.SUCCESS) :
    (parseResponse tp txn buffer w).2.1 = buffer := by
  unfold parseResponse at h ⊢
  generalize scanPreamble tp txn MAX_SCAN w = r at h ⊢
  obtain ⟨sc, w1⟩ := r
  cases sc with
  | failed st => rfl
  | missing => rfl
  | found =>
    simp only at h ⊢
    generalize parseLength tp txn w1 = q at h ⊢
    obtain ⟨e, w2⟩ := q
    cases e with
    | error st => rfl
    | ok len => exact parseBody_keeps tp txn len buffer w2 h

theorem transceive_keeps (tp : Transport σ) (cmd response : List Nat) (t : Nat) (w : World σ)
    (h : (transceive tp cmd response t w).1 ≠ Status.SUCCESS) :
    (transceive tp cmd response t w).2.1 = response := by
  unfold transceive at h ⊢
  simp only at h ⊢
  split
  · rfl
  · split
    · rfl
    · split
      · rfl
      · split
        · rfl
        · rename_i h1 h2 h3 h4
          rw [if_neg h1, if_neg h2, if_neg h3, if_neg h4] at h
          exact parseResponse_keeps tp _ response _ h

end Operations


/-- Claim C10, as amended. When `parseResponse`, `GetGeneralStatus`, `ReadRegister`,
`InCommunicateThru` or `InListPassiveTarget` returns a status other than `SUCCESS`, the
output parameters (buffer, response, or `uid`, `sens_res`, `sel_res`) have the values they
had before the call; `InDataExchange` leaves `response` as it was whenever the underlying
exchange returns a status other than `SUCCESS`. -/
theorem C10_outputs_kept {σ : Type} (tp : Transport σ) (w : World σ) :
    (∀ txn buffer, (parseResponse tp txn buffer w).1 ≠ Status.SUCCESS →
        (parseResponse tp txn buffer w).2.1 = buffer)
      ∧ (∀ response, (Frontend.GetGeneralStatus tp response w).1 ≠ Status.SUCCESS →
        (Frontend.GetGeneralStatus tp response w).2.1 = response)
      ∧ (∀ reg response, (Frontend.ReadRegister tp reg response w).1 ≠ Status.SUCCESS →
        (Frontend.ReadRegister tp reg response w).2.1 = response)
      ∧ (∀ send response timeout,
        (Frontend.InCommunicateThru tp send response timeout w).1 ≠ Status.SUCCESS →
        (Frontend.InCommunicateThru tp send response timeout w).2.1 = response)
      ∧ (∀ baud out timeout,
        (Frontend.InListPassiveTarget tp baud out timeout w).1 ≠ Status.SUCCESS →
        (Frontend.InListPassiveTarget tp baud out timeout w).2.1 = out)
      ∧ (∀ send response timeout,
        (transceive tp ([PN532_COMMAND_INDATAEXCHANGE, 0x01] ++ send) response timeout w).1
            ≠ Status.SUCCESS →
        (Frontend.InDataExchange tp send response timeout w).2.1 = response) := by
  refine ⟨?_, ?_, ?_, ?_, ?_, ?_⟩
  · intro txn buffer h
    exact parseResponse_keeps tp txn buffer w h
  · intro response h
    exact transceive_keeps tp _ response _ w h
  · intro reg response h
    exact transceive_keeps tp _ response _ w h
  · intro send response timeout h
    exact transceive_keeps tp _ response _ w h
  · intro baud out timeout h
    unfold Frontend.InListPassiveTarget at h ⊢
    simp only at h ⊢
    split
    · rfl
    · split
      · rfl
      · split
        · rfl
        · split
          · rfl
          · rename_i h1 h2 h3 h4
            rw [if_neg h1, if_neg h2, if_neg h3, if_neg h4] at h
            exact absurd (not_not.1 h1) h
  · intro send response timeout h
    have hk := transceive_keeps tp _ response timeout w h
    unfold Frontend.InDataExchange
    simp only
    split <;> exact hk

theorem C10_outputs_kept_witness :
    (Frontend.InListPassiveTarget mockTransport 0
        { uid := [1, 2], sens_res := (3, 4), sel_res := 5 } 1000
        { dev := Mock.exchange [] [] [], trace := [] }).2.1
        = { uid := [1, 2], sens_res := (3, 4), sel_res := 5 }
      ∧ (Frontend.InDataExchange mockTransport [0xAA] [0x41, 0x07] 1000
        { dev := Mock.exchange [] [] [], trace := [] }).2.1 = [0x41, 0x07]
      ∧ (parseResponse mockTransport readModeTxn [0x09]
        { dev := Mock.stream [0x00, 0x00, 0xFF, 0x00, 0x00], trace := [] }).2.1 = [0x09] :=
  ⟨(C10_outputs_kept mockTransport { dev := Mock.exchange [] [] [], trace := [] }).2.2.2.2.1
      0 { uid := [1, 2], sens_res := (3, 4), sel_res := 5 } 1000 (by decide),
   (C10_outputs_kept mockTransport { dev := Mock.exchange [] [] [], trace := [] }).2.2.2.2.2
      [0xAA] [0x41, 0x07] 1000 (by decide),
   (C10_outputs_kept mockTransport
      { dev := Mock.stream [0x00, 0x00, 0xFF, 0x00, 0x00], trace := [] }).1
      readModeTxn [0x09] (by decide)⟩

/-- Counterexample to claim C10 as stated. The device acknowledges and answers with a valid
frame whose data bytes are `D5 00`: `InDataExchange`, called with `response = [0x41, 0x07]`,
returns `INVALID_FRAME` (the first reply byte is not `0x41`) and `response` now holds
`[0x00]`. -/
theorem C10_counterexample :
    (Frontend.InDataExchange mockTransport [0xAA] [0x41, 0x07] 1000
        { dev := Mock.exchange [true, true] [Status.SUCCESS, Status.SUCCESS]
            ([0x00, 0x00, 0xFF, 0x00, 0xFF, 0x00]
              ++ [0x00, 0x00, 0xFF, 0x02, 0xFE, 0xD5, 0x00, 0x2B, 0x00]),
          trace := [] }).1 = Status.INVALID_FRAME
      ∧ (Frontend.InDataExchange mockTransport [0xAA] [0x41, 0x07] 1000
        { dev := Mock.exchange [true, true] [Status.SUCCESS, Status.SUCCESS]
            ([0x00, 0x00, 0xFF, 0x00, 0xFF, 0x00]
              ++ [0x00, 0x00, 0xFF, 0x02, 0xFE, 0xD5, 0x00, 0x2B, 0x00]),
          trace := [] }).2.1 = [0x00] := by
  decide

/-! ## Phases of the guard -/

section Phases
variable {σ : Type}

theorem read_refused (tp : Transport σ) (txn : Transaction) (n : Nat) (w : World σ)
    (hm : txn.in_read_mode = false) :
    (txn.read tp n w).1 = Status.TRANSPORT_ERROR ∧ (txn.read tp n w).2.2 = w := by
  unfold Transaction.read
  split
  · exact ⟨rfl, rfl⟩
  · simp [hm]

theorem waitForResponse_ready (tp : Transport σ) (txn : Transaction) (t : Nat) (w : World σ)
    (hv : txn.valid = true) (ht : txn.transport.isSome = true)
    (hready : (tp.waitReady t w.dev).1 = true)
    (hprep : (tp.prepareRead (tp.waitReady t w.dev).2).1 = Status.SUCCESS) :
    (txn.waitForResponse tp t w).1 = Status.SUCCESS
      ∧ (txn.waitForResponse tp t w).2.1 = { txn with in_read_mode := true }
      ∧ (txn.waitForResponse tp t w).2.2.trace
          = w.trace ++ [Call.waitReady t, Call.prepareRead] := by
  have h2 : txn.transport ≠ none := by
    intro h
    simp [h] at ht
  unfold Transaction.waitForResponse
  rw [if_neg (by simp [hv, h2])]
  simp [callWaitReady, callPrepareRead, hready, hprep]

/-- Claim C11, as amended. On a valid guard, `read` called while the guard is not in read
mode returns `TRANSPORT_ERROR` and leaves the world as it was (no `readChunk`);
`waitForResponse` and `write` look at the validity of the guard only: `waitForResponse`
succeeds and enters read mode as soon as `waitReady` reports ready and `prepareRead`
succeeds, whether or not `waitForAck` ran before, and `write` forwards to `writeChunk`
and returns its status, also in read mode. -/
theorem C11_phases (tp : Transport σ) (txn : Transaction) (w : World σ)
    (hv : txn.valid = true) (ht : txn.transport.isSome = true) :
    (txn.in_read_mode = false → ∀ n,
        (txn.read tp n w).1 = Status.TRANSPORT_ERROR ∧ (txn.read tp n w).2.2 = w)
      ∧ (∀ t, (tp.waitReady t w.dev).1 = true →
          (tp.prepareRead (tp.waitReady t w.dev).2).1 = Status.SUCCESS →
          (txn.waitForResponse tp t w).1 = Status.SUCCESS
            ∧ (txn.waitForResponse tp t w).2.1.in_read_mode = true
            ∧ (txn.waitForResponse tp t w).2.1.valid = true)
      ∧ (∀ data, (txn.write tp data w).1 = (tp.writeChunk data w.dev).1
          ∧ (txn.write tp data w).2.trace = w.trace ++ [Call.writeChunk data]) := by
  refine ⟨fun hm n => read_refused tp txn n w hm, ?_, ?_⟩
  · intro t hready hprep
    obtain ⟨h1, h2, _⟩ := waitForResponse_ready tp txn t w hv ht hready hprep
    rw [h2]
    exact ⟨h1, rfl, hv⟩
  · intro data
    refine ⟨?_, write_trace tp txn data w hv ht⟩
    have h2 : txn.transport ≠ none := by
      intro h
      simp [h] at ht
    simp [Transaction.write, hv, h2, callWriteChunk]

end Phases

theorem C11_phases_witness :
    ((activeTxn.read mockTransport 3 { dev := Mock.stream [1, 2, 3], trace := [] }).1
        = Status.TRANSPORT_ERROR
      ∧ (activeTxn.read mockTransport 3 { dev := Mock.stream [1, 2, 3], trace := [] }).2.2
        = { dev := Mock.stream [1, 2, 3], trace := [] })
    ∧ (readModeTxn.write mockTransport [7] { dev := Mock.stream [], trace := [] }).2.trace
        = [Call.writeChunk [7]] :=
  ⟨(C11_phases mockTransport activeTxn { dev := Mock.stream [1, 2, 3], trace := [] }
      (by decide) (by decide)).1 (by decide) 3,
   ((C11_phases mockTransport readModeTxn { dev := Mock.stream [], trace := [] }
      (by decide) (by decide)).2.2 [7]).2⟩

/-- Counterexample to claim C11 as stated. On a guard fresh from `begin`, `waitForResponse`
without any `waitForAck` succeeds and enters read mode; on a guard in read mode, `write`
is not refused: it calls `writeChunk` and returns `SUCCESS`. -/
theorem C11_counterexample :
    (activeTxn.waitForResponse mockTransport 1000
        { dev := Mock.exchange [true] [Status.SUCCESS] [], trace := [] }).1 = Status.SUCCESS
      ∧ (activeTxn.waitForResponse mockTransport 1000
        { dev := Mock.exchange [true] [Status.SUCCESS] [], trace := [] }).2.1
        = { transport := some 0, valid := true, in_read_mode := true }
      ∧ (readModeTxn.write mockTransport [7]
        { dev := Mock.exchange [] [] [], trace := [] }).1 = Status.SUCCESS
      ∧ (readModeTxn.write mockTransport [7]
        { dev := Mock.exchange [] [] [], trace := [] }).2.trace = [Call.writeChunk [7]] := by
  decide

/-! ## `GetFirmwareVersion` -/

/-- The value `GetFirmwareVersion` computes from a response of at least five bytes: the
shifts by 8 and by 16 place byte 2 at bits 24..31, byte 3 at bits 16..23 and byte 4 at
bits 0..7. -/
theorem GetFirmwareVersion_value {σ : Type} (tp : Transport σ) (w : World σ)
    (hs : (transceive tp [PN532_COMMAND_GETFIRMWAREVERSION] [] 1000 w).1 = Status.SUCCESS)
    (hl : 5 ≤ (transceive tp [PN532_COMMAND_GETFIRMWAREVERSION] [] 1000 w).2.1.length)
    (b2 b3 b4 : Nat)
    (h2 : (transceive tp [PN532_COMMAND_GETFIRMWAREVERSION] [] 1000 w).2.1.getD 2 0 = b2)
    (h3 : (transceive tp [PN532_COMMAND_GETFIRMWAREVERSION] [] 1000 w).2.1.getD 3 0 = b3)
    (h4 : (transceive tp [PN532_COMMAND_GETFIRMWAREVERSION] [] 1000 w).2.1.getD 4 0 = b4)
    (hb2 : b2 < 256) (hb3 : b3 < 256) (hb4 : b4 < 256) :
    (Frontend.GetFirmwareVersion tp w).1 = b2 * 16777216 + b3 * 65536 + b4 := by
  unfold Frontend.GetFirmwareVersion
  simp only
  rw [if_neg (by simp [hs]), if_neg (by omega), h2, h3, h4]
  simp only
  have e1 : (b2 <<< 8) % 4294967296 = 2 ^ 8 * b2 := by
    rw [Nat.shiftLeft_eq]
    omega
  have e2 : 2 ^ 8 * b2 ||| b3 = 2 ^ 8 * b2 + b3 :=
    (Nat.mul_add_lt_is_or (by simpa using hb3) b2).symm
  have e3 : ((2 ^ 8 * b2 + b3) <<< 16) % 4294967296 = 2 ^ 16 * (2 ^ 8 * b2 + b3) := by
    rw [Nat.shiftLeft_eq]
    omega
  have e4 : 2 ^ 16 * (2 ^ 8 * b2 + b3) ||| b4 = 2 ^ 16 * (2 ^ 8 * b2 + b3) + b4 :=
    (Nat.mul_add_lt_is_or (by omega) _).symm
  rw [e1, e2, e3, e4]
  omega

/-- Claim C12, as amended. `GetFirmwareVersion` returns 0 whenever the exchange fails or
the decoded response (the frame data without the direction byte) has fewer than five
bytes; with a transport whose response frame carries the data bytes `D5 03 01 02 03` the
decoded response is `03 01 02 03`, which is too short, and the result is 0. -/
theorem C12_firmware_version {σ : Type} (tp : Transport σ) (w : World σ) :
    ((transceive tp [PN532_COMMAND_GETFIRMWAREVERSION] [] 1000 w).1 ≠ Status.SUCCESS →
        (Frontend.GetFirmwareVersion tp w).1 = 0)
      ∧ ((transceive tp [PN532_COMMAND_GETFIRMWAREVERSION] [] 1000 w).2.1.length < 5 →
        (Frontend.GetFirmwareVersion tp w).1 = 0)
      ∧ (transceive mockTransport [PN532_COMMAND_GETFIRMWAREVERSION] [] 1000
          { dev := Mock.answering
              [0x00, 0x00, 0xFF, 0x05, 0xFB, 0xD5, 0x03, 0x01, 0x02, 0x03, 0x22, 0x00],
            trace := [] }).1 = Status.SUCCESS
      ∧ (transceive mockTransport [PN532_COMMAND_GETFIRMWAREVERSION] [] 1000
          { dev := Mock.answering
              [0x00, 0x00, 0xFF, 0x05, 0xFB, 0xD5, 0x03, 0x01, 0x02, 0x03, 0x22, 0x00],
            trace := [] }).2.1 = [0x03, 0x01, 0x02, 0x03]
      ∧ (Frontend.GetFirmwareVersion mockTransport
          { dev := Mock.answering
              [0x00, 0x00, 0xFF, 0x05, 0xFB, 0xD5, 0x03, 0x01, 0x02, 0x03, 0x22, 0x00],
            trace := [] }).1 = 0 := by
  refine ⟨?_, ?_, by decide, by decide, by decide⟩
  · intro h
    simp [Frontend.GetFirmwareVersion, h]
  · intro h
    unfold Frontend.GetFirmwareVersion
    simp only
    split <;> rfl

theorem C12_firmware_version_witness :
    (Frontend.GetFirmwareVersion mockTransport
        { dev := Mock.exchange [] [] [], trace := [] }).1 = 0
      ∧ (Frontend.GetFirmwareVersion mockTransport
        { dev := Mock.answering [0x00, 0x00, 0xFF, 0x02, 0xFE, 0xD5, 0x03, 0x28, 0x00],
          trace := [] }).1 = 0 :=
  ⟨(C12_firmware_version mockTransport { dev := Mock.exchange [] [] [], trace := [] }).1
      (by decide),
   (C12_firmware_version mockTransport
      { dev := Mock.answering [0x00, 0x00, 0xFF, 0x02, 0xFE, 0xD5, 0x03, 0x28, 0x00],
        trace := [] }).2.1 (by decide)⟩

/-- Counterexample to claim C12 as stated. The response frame with data bytes
`D5 03 01 02 03` gives 0, not `0x010203`; and the response frame with data bytes
`D5 03 32 01 06 07` (decoded response `03 32 01 06 07`, bytes 2..4 are `01 06 07`) gives
`0x01060007`, which is neither `0x010607` nor below `2^24`. -/
theorem C12_counterexample :
    (Frontend.GetFirmwareVersion mockTransport
        { dev := Mock.answering
            [0x00, 0x00, 0xFF, 0x05, 0xFB, 0xD5, 0x03, 0x01, 0x02, 0x03, 0x22, 0x00],
          trace := [] }).1 ≠ 0x010203
      ∧ (transceive mockTransport [PN532_COMMAND_GETFIRMWAREVERSION] [] 1000
        { dev := Mock.answering
            [0x00, 0x00, 0xFF, 0x06, 0xFA, 0xD5, 0x03, 0x32, 0x01, 0x06, 0x07, 0xE8, 0x00],
          trace := [] }).2.1 = [0x03, 0x32, 0x01, 0x06, 0x07]
      ∧ (Frontend.GetFirmwareVersion mockTransport
        { dev := Mock.answering
            [0x00, 0x00, 0xFF, 0x06, 0xFA, 0xD5, 0x03, 0x32, 0x01, 0x06, 0x07, 0xE8, 0x00],
          trace := [] }).1 = 0x01060007
      ∧ ¬ (0x01060007 < 2 ^ 24)
      ∧ 0x01060007 ≠ 0x01 * 65536 + 0x06 * 256 + 0x07 := by
  decide

/-! ## `InListPassiveTarget` -/

/-- Claim C13, as amended. With a transport that acknowledges the command and returns a
valid response frame whose data bytes after the direction byte `D5` are
`D5 4B 01 00 08 04 04 AA BB CC DD` (so that these eleven bytes are the decoded response),
`InListPassiveTarget` called with an empty `uid` returns `SUCCESS` with
`sens_res = {00, 08}`, `sel_res = 04` and `uid = {AA, BB, CC, DD}`. -/
theorem C13_passive_target_scenario :
    (transceive mockTransport [PN532_COMMAND_INLISTPASSIVETARGET, 1, 0x00] [] 1000
        { dev := Mock.answering
            [0x00, 0x00, 0xFF, 0x0C, 0xF4, 0xD5, 0xD5, 0x4B, 0x01, 0x00, 0x08, 0x04, 0x04,
              0xAA, 0xBB, 0xCC, 0xDD, 0xEC, 0x00],
          trace := [] }).2.1
        = [0xD5, 0x4B, 0x01, 0x00, 0x08, 0x04, 0x04, 0xAA, 0xBB, 0xCC, 0xDD]
      ∧ (Frontend.InListPassiveTarget mockTransport 0x00
        { uid := [], sens_res := (0, 0), sel_res := 0 } 1000
        { dev := Mock.answering
            [0x00, 0x00, 0xFF, 0x0C, 0xF4, 0xD5, 0xD5, 0x4B, 0x01, 0x00, 0x08, 0x04, 0x04,
              0xAA, 0xBB, 0xCC, 0xDD, 0xEC, 0x00],
          trace := [] }).1 = Status.SUCCESS
      ∧ (Frontend.InListPassiveTarget mockTransport 0x00
        { uid := [], sens_res := (0, 0), sel_res := 0 } 1000
        { dev := Mock.answering
            [0x00, 0x00, 0xFF, 0x0C, 0xF4, 0xD5, 0xD5, 0x4B, 0x01, 0x00, 0x08, 0x04, 0x04,
              0xAA, 0xBB, 0xCC, 0xDD, 0xEC, 0x00],
          trace := [] }).2.1
        = { uid := [0xAA, 0xBB, 0xCC, 0xDD], sens_res := (0x00, 0x08), sel_res := 0x04 } := by
  decide

/-- Counterexample to claim C13 as stated. The response frame whose data bytes are
`D5 4B 01 00 08 04 04 AA BB CC DD` decodes to `4B 01 00 08 04 04 AA BB CC DD`: byte 6,
the UID length, is `AA`, the response is too short for it, and `InListPassiveTarget`
returns `INVALID_FRAME` with the outputs untouched. -/
theorem C13_counterexample :
    (transceive mockTransport [PN532_COMMAND_INLISTPASSIVETARGET, 1, 0x00] [] 1000
        { dev := Mock.answering
            [0x00, 0x00, 0xFF, 0x0B, 0xF5, 0xD5, 0x4B, 0x01, 0x00, 0x08, 0x04, 0x04,
              0xAA, 0xBB, 0xCC, 0xDD, 0xC1, 0x00],
          trace := [] }).1 = Status.SUCCESS
      ∧ (transceive mockTransport [PN532_COMMAND_INLISTPASSIVETARGET, 1, 0x00] [] 1000
        { dev := Mock.answering
            [0x00, 0x00, 0xFF, 0x0B, 0xF5, 0xD5, 0x4B, 0x01, 0x00, 0x08, 0x04, 0x04,
              0xAA, 0xBB, 0xCC, 0xDD, 0xC1, 0x00],
          trace := [] }).2.1
        = [0x4B, 0x01, 0x00, 0x08, 0x04, 0x04, 0xAA, 0xBB, 0xCC, 0xDD]
      ∧ (Frontend.InListPassiveTarget mockTransport 0x00
        { uid := [], sens_res := (0, 0), sel_res := 0 } 1000
        { dev := Mock.answering
            [0x00, 0x00, 0xFF, 0x0B, 0xF5, 0xD5, 0x4B, 0x01, 0x00, 0x08, 0x04, 0x04,
              0xAA, 0xBB, 0xCC, 0xDD, 0xC1, 0x00],
          trace := [] }).1 = Status.INVALID_FRAME
      ∧ (Frontend.InListPassiveTarget mockTransport 0x00
        { uid := [], sens_res := (0, 0), sel_res := 0 } 1000
        { dev := Mock.answering
            [0x00, 0x00, 0xFF, 0x0B, 0xF5, 0xD5, 0x4B, 0x01, 0x00, 0x08, 0x04, 0x04,
              0xAA, 0xBB, 0xCC, 0xDD, 0xC1, 0x00],
          trace := [] }).2.1 = { uid := [], sens_res := (0, 0), sel_res := 0 } := by
  decide

section Target
variable {σ : Type}

/-- Claim C14, as amended. For every successfully decoded response `r`,
`InListPassiveTarget` returns `NO_TAGS_FOUND` when `r` has fewer than two bytes or its
tag-count byte `r[1]` is 0, and `INVALID_FRAME` for every other response of fewer than
eight bytes. -/
theorem C14_shape_validation (tp : Transport σ) (baud : Nat) (out : TargetInfo)
    (timeout : Nat) (w : World σ) (r : List Nat)
    (hs : (transceive tp [PN532_COMMAND_INLISTPASSIVETARGET, 1, baud] [] timeout w).1
      = Status.SUCCESS)
    (hr : (transceive tp [PN532_COMMAND_INLISTPASSIVETARGET, 1, baud] [] timeout w).2.1 = r) :
    ((r.length < 2 ∨ r.getD 1 0 = 0) →
        (Frontend.InListPassiveTarget tp baud out timeout w).1 = Status.NO_TAGS_FOUND)
      ∧ (2 ≤ r.length → r.getD 1 0 ≠ 0 → r.length < 8 →
        (Frontend.InListPassiveTarget tp baud out timeout w).1 = Status.INVALID_FRAME) := by
  constructor
  · intro h
    unfold Frontend.InListPassiveTarget
    simp only [hs, hr]
    rw [if_neg (by simp), if_pos h]
  · intro h2 h1 h8
    unfold Frontend.InListPassiveTarget
    simp only [hs, hr]
    have hn : ¬ (r.length < 2 ∨ r.getD 1 0 = 0) := by
      intro h
      rcases h with h | h
      · omega
      · exact h1 h
    rw [if_neg (by simp), if_neg hn, if_pos h8]

/-- Claim C20. For every initial `uid` value `u` and every successfully decoded response
`r` with `r[1] ≠ 0`, at least 8 bytes and at least `7 + r[6]` bytes, `InListPassiveTarget`
returns `SUCCESS` with `uid = u ++ r[7 .. 7 + r[6])`, `sens_res = (r[3], r[4])` and
`sel_res = r[5]`; the resulting `uid` is the tag's UID `r[7 .. 7 + r[6])` exactly when
`u` was empty. -/
theorem C20_uid_appended (tp : Transport σ) (baud : Nat) (out : TargetInfo)
    (timeout : Nat) (w : World σ) (r : List Nat)
    (hs : (transceive tp [PN532_COMMAND_INLISTPASSIVETARGET, 1, baud] [] timeout w).1
      = Status.SUCCESS)
    (hr : (transceive tp [PN532_COMMAND_INLISTPASSIVETARGET, 1, baud] [] timeout w).2.1 = r)
    (h1 : r.getD 1 0 ≠ 0) (h8 : 8 ≤ r.length) (hu : 7 + r.getD 6 0 ≤ r.length) :
    (Frontend.InListPassiveTarget tp baud out timeout w).1 = Status.SUCCESS
      ∧ (Frontend.InListPassiveTarget tp baud out timeout w).2.1
        = { uid := out.uid ++ (r.drop 7).take (r.getD 6 0),
            sens_res := (r.getD 3 0, r.getD 4 0),
            sel_res := r.getD 5 0 }
      ∧ ((Frontend.InListPassiveTarget tp baud out timeout w).2.1.uid
            = (r.drop 7).take (r.getD 6 0) ↔ out.uid = []) := by
  have hn : ¬ (r.length < 2 ∨ r.getD 1 0 = 0) := by
    intro h
    rcases h with h | h
    · omega
    · exact h1 h
  have e : Frontend.InListPassiveTarget tp baud out timeout w
      = (Status.SUCCESS,
          { uid := out.uid ++ (r.drop 7).take (r.getD 6 0),
            sens_res := (r.getD 3 0, r.getD 4 0),
            sel_res := r.getD 5 0 },
          (transceive tp [PN532_COMMAND_INLISTPASSIVETARGET, 1, baud] [] timeout w).2.2) := by
    unfold Frontend.InListPassiveTarget
    simp only [hs, hr]
    rw [if_neg (by simp), if_neg hn, if_neg (by omega), if_neg (by omega)]
  rw [e]
  refine ⟨rfl, rfl, ?_⟩
  simp

end Target

theorem C14_shape_validation_witness :
    (Frontend.InListPassiveTarget mockTransport 0x00
        { uid := [], sens_res := (0, 0), sel_res := 0 } 1000
        { dev := Mock.answering [0x00, 0x00, 0xFF, 0x03, 0xFD, 0xD5, 0x4B, 0x00, 0xE0, 0x00],
          trace := [] }).1 = Status.NO_TAGS_FOUND
      ∧ (Frontend.InListPassiveTarget mockTransport 0x00
        { uid := [], sens_res := (0, 0), sel_res := 0 } 1000
        { dev := Mock.answering [0x00, 0x00, 0xFF, 0x03, 0xFD, 0xD5, 0x4B, 0x01, 0xDF, 0x00],
          trace := [] }).1 = Status.INVALID_FRAME :=
  ⟨(C14_shape_validation mockTransport 0x00 { uid := [], sens_res := (0, 0), sel_res := 0 }
      1000
      { dev := Mock.answering [0x00, 0x00, 0xFF, 0x03, 0xFD, 0xD5, 0x4B, 0x00, 0xE0, 0x00],
        trace := [] } [0x4B, 0x00] (by decide) (by decide)).1 (by decide),
   (C14_shape_validation mockTransport 0x00 { uid := [], sens_res := (0, 0), sel_res := 0 }
      1000
      { dev := Mock.answering [0x00, 0x00, 0xFF, 0x03, 0xFD, 0xD5, 0x4B, 0x01, 0xDF, 0x00],
        trace := [] } [0x4B, 0x01] (by decide) (by decide)).2 (by decide) (by decide)
      (by decide)⟩

/-- Counterexample to claim C14 as stated. Responses that decode to zero bytes (frame data
`D5`) or to one byte (frame data `D5 4B`) have no tag-count byte, and
`InListPassiveTarget` returns `NO_TAGS_FOUND` for them, not `INVALID_FRAME`. -/
theorem C14_counterexample :
    (transceive mockTransport [PN532_COMMAND_INLISTPASSIVETARGET, 1, 0x00] [] 1000
        { dev := Mock.answering [0x00, 0x00, 0xFF, 0x01, 0xFF, 0xD5, 0x2B, 0x00],
          trace := [] }).1 = Status.SUCCESS
      ∧ (transceive mockTransport [PN532_COMMAND_INLISTPASSIVETARGET, 1, 0x00] [] 1000
        { dev := Mock.answering [0x00, 0x00, 0xFF, 0x01, 0xFF, 0xD5, 0x2B, 0x00],
          trace := [] }).2.1 = []
      ∧ (Frontend.InListPassiveTarget mockTransport 0x00
        { uid := [], sens_res := (0, 0), sel_res := 0 } 1000
        { dev := Mock.answering [0x00, 0x00, 0xFF, 0x01, 0xFF, 0xD5, 0x2B, 0x00],
          trace := [] }).1 = Status.NO_TAGS_FOUND
      ∧ (transceive mockTransport [PN532_COMMAND_INLISTPASSIVETARGET, 1, 0x00] [] 1000
        { dev := Mock.answering [0x00, 0x00, 0xFF, 0x02, 0xFE, 0xD5, 0x4B, 0xE0, 0x00],
          trace := [] }).2.1 = [0x4B]
      ∧ (Frontend.InListPassiveTarget mockTransport 0x00
        { uid := [], sens_res := (0, 0), sel_res := 0 } 1000
        { dev := Mock.answering [0x00, 0x00, 0xFF, 0x02, 0xFE, 0xD5, 0x4B, 0xE0, 0x00],
          trace := [] }).1 = Status.NO_TAGS_FOUND := by
  decide

theorem C20_uid_appended_witness :
    (Frontend.InListPassiveTarget mockTransport 0x00
        { uid := [0x01, 0x02], sens_res := (0, 0), sel_res := 0 } 1000
        { dev := Mock.answering
            [0x00, 0x00, 0xFF, 0x0C, 0xF4, 0xD5, 0x4B, 0x01, 0x01, 0x00, 0x04, 0x08, 0x04,
              0xAA, 0xBB, 0xCC, 0xDD, 0xC0, 0x00],
          trace := [] }).2.1
        = { uid := [0x01, 0x02, 0xAA, 0xBB, 0xCC, 0xDD], sens_res := (0x00, 0x04),
            sel_res := 0x08 } :=
  (C20_uid_appended mockTransport 0x00 { uid := [0x01, 0x02], sens_res := (0, 0), sel_res := 0 }
    1000
    { dev := Mock.answering
        [0x00, 0x00, 0xFF, 0x0C, 0xF4, 0xD5, 0x4B, 0x01, 0x01, 0x00, 0x04, 0x08, 0x04,
          0xAA, 0xBB, 0xCC, 0xDD, 0xC0, 0x00],
      trace := [] }
    [0x4B, 0x01, 0x01, 0x00, 0x04, 0x08, 0x04, 0xAA, 0xBB, 0xCC, 0xDD]
    (by decide) (by decide) (by decide) (by decide) (by decide)).2.1

/-! ## Error frame and zero length -/

/-- Claim C15. Every byte stream that starts with `00 00 FF 01 FF 7F 81` makes
`parseResponse` return `ERROR_FRAME`, whatever bytes follow and although the data byte
`7F` is not the device-to-host direction byte; the output buffer is not modified. -/
theorem C15_error_frame (rest buffer : List Nat) :
    decodeStream (0x00 :: 0x00 :: 0xFF :: 0x01 :: 0xFF :: 0x7F :: 0x81 :: rest) buffer
        = (Status.ERROR_FRAME, buffer)
      ∧ 0x7F ≠ PN532_PN532TOHOST := by
  have f3 : fill 3 [0, 0, 255] = [0, 0, 255] := by decide
  have f2 : fill 2 [1, 255] = [1, 255] := by decide
  have f1 : fill 1 [127] = [127] := by decide
  have g1 : fill 1 [129] = [129] := by decide
  refine ⟨?_, by decide⟩
  simp [decodeStream, parseResponse, MAX_SCAN, scanPreamble, parseLength, parseBody,
    Transaction.read, readModeTxn, callReadChunk, mockTransport, Mock.stream, isStart, f3, f2,
    f1, g1]

section ZeroLength
variable {σ : Type}

theorem parseBody_zero (tp : Transport σ) (txn : Transaction) (buffer : List Nat)
    (w : World σ) : parseBody tp txn 0 buffer w = (Status.INVALID_FRAME, buffer, w) := by
  simp [parseBody]

/-- Claim C16. Whenever the preamble is found and the length field decodes to 0,
`parseResponse` returns `INVALID_FRAME` with the buffer unchanged and the world as it
was right after the length field (no further read), so such an input never yields
`SUCCESS`; on the streams `00 00 FF 00 00 ...` and `00 00 FF FF FF 00 00 00 ...` the only
calls are the reads of preamble and length field, and all following bytes stay unread. -/
theorem C16_zero_length (tp : Transport σ) (txn : Transaction) (buffer : List Nat)
    (w : World σ) (hs : (scanPreamble tp txn MAX_SCAN w).1 = Scan.found)
    (hl : (parseLength tp txn (scanPreamble tp txn MAX_SCAN w).2).1 = Except.ok 0) :
    parseResponse tp txn buffer w
        = (Status.INVALID_FRAME, buffer,
            (parseLength tp txn (scanPreamble tp txn MAX_SCAN w).2).2)
      ∧ (parseResponse tp txn buffer w).1 ≠ Status.SUCCESS
      ∧ (∀ rest,
          decodeStream (0x00 :: 0x00 :: 0xFF :: 0x00 :: 0x00 :: rest) buffer
              = (Status.INVALID_FRAME, buffer)
            ∧ decodeEffect (0x00 :: 0x00 :: 0xFF :: 0x00 :: 0x00 :: rest) buffer
              = ([Call.readChunk 3, Call.readChunk 2], rest))
      ∧ (∀ rest,
          decodeStream (0x00 :: 0x00 :: 0xFF :: 0xFF :: 0xFF :: 0x00 :: 0x00 :: 0x00 :: rest)
              buffer = (Status.INVALID_FRAME, buffer)
            ∧ decodeEffect
                (0x00 :: 0x00 :: 0xFF :: 0xFF :: 0xFF :: 0x00 :: 0x00 :: 0x00 :: rest) buffer
              = ([Call.readChunk 3, Call.readChunk 2, Call.readChunk 3], rest)) := by
  have e := parseResponse_of_found tp txn buffer w 0 hs hl
  rw [parseBody_zero] at e
  have f3 : fill 3 [0, 0, 255] = [0, 0, 255] := by decide
  have f2 : fill 2 [0, 0] = [0, 0] := by decide
  have g2 : fill 2 [255, 255] = [255, 255] := by decide
  have g3 : fill 3 [0, 0, 0] = [0, 0, 0] := by decide
  refine ⟨e, by rw [e]; simp, ?_, ?_⟩
  · intro rest
    constructor <;>
    simp [decodeStream, decodeEffect, parseResponse, MAX_SCAN, scanPreamble, parseLength,
      parseBody, Transaction.read, readModeTxn, callReadChunk, mockTransport, Mock.stream,
      isStart, f3, f2]
  · intro rest
    constructor <;>
    simp [decodeStream, decodeEffect, parseResponse, MAX_SCAN, scanPreamble, parseLength,
      parseBody, Transaction.read, readModeTxn, callReadChunk, mockTransport, Mock.stream,
      isStart, f3, g2, g3]

end ZeroLength

theorem C16_zero_length_witness :
    parseResponse mockTransport readModeTxn [0x09]
        { dev := Mock.stream [0x00, 0x00, 0xFF, 0x00, 0x00, 0xD5, 0x2B, 0x00], trace := [] }
      = (Status.INVALID_FRAME, [0x09],
          (parseLength mockTransport readModeTxn
            (scanPreamble mockTransport readModeTxn MAX_SCAN
              { dev := Mock.stream [0x00, 0x00, 0xFF, 0x00, 0x00, 0xD5, 0x2B, 0x00],
                trace := [] }).2).2) :=
  (C16_zero_length mockTransport readModeTxn [0x09]
    { dev := Mock.stream [0x00, 0x00, 0xFF, 0x00, 0x00, 0xD5, 0x2B, 0x00], trace := [] }
    (by decide) rfl).1

/-! ## Bytes after the data checksum -/

section Success
variable {σ : Type}

end Success

/-- The scan locks on the first of the windows it looks at (offsets `4 i` and `4 i + 1`)
that holds the start sequence; windows at other offsets play no role. -/
theorem scan_locks_examined {txn : Transaction} (ht : txn.canRead) (r : Nat) (hr : r ≤ 1) :
    ∀ (i fuel : Nat) (w : World Mock), i < fuel → Bytes w.dev.rx →
      startsAt w.dev.rx (4 * i + r) = true →
      (∀ j, j < 4 * i + r → j % 4 ≤ 1 → startsAt w.dev.rx j = false) →
      (scanPreamble mockTransport txn fuel w).1 = Scan.found
        ∧ (scanPreamble mockTransport txn fuel w).2.dev.rx = w.dev.rx.drop (4 * i + r + 3) := by
  intro i
  induction i with
  | zero =>
    intro fuel w hf hb hs _
    exact scan_locks ht r hr 0 fuel w hf hb hs (by
      intro j hj
      have hj0 : j = 0 := by omega
      have hr1 : r = 1 := by omega
      subst hj0
      subst hr1
      have hl := startsAt_length hs
      cases hc : startsAt w.dev.rx 0
      · rfl
      · exfalso
        norm_num [startsAt] at hs hc
        have h2 : 2 < w.dev.rx.length := by omega
        rw [List.getElem?_eq_getElem h2] at hs hc
        simp only [Option.getD_some] at hs hc
        omega)
  | succ i ih =>
    intro fuel w hf hb hs hfirst
    obtain ⟨k, rfl⟩ : ∃ k, fuel = k + 1 := ⟨fuel - 1, by omega⟩
    have hl := startsAt_length hs
    obtain ⟨e, hrx⟩ := scan_skip ht k w hb (by omega) (hfirst 0 (by omega) (by omega))
      (hfirst 1 (by omega) (by omega))
    rw [e]
    have h := ih k _ (by omega) (by rw [hrx]; exact hb.drop 4)
      (by rw [hrx, startsAt_drop]; rw [← hs]; congr 1; omega)
      (by intro j hj hm; rw [hrx, startsAt_drop]; exact hfirst _ (by omega) (by omega))
    rw [hrx, List.drop_drop] at h
    refine ⟨h.1, ?_⟩
    rw [h.2]
    congr 1
    omega

/-- With fewer than four bytes left and no start sequence at offset 0, an iteration of the
scan ends on a failed read. -/
theorem scan_short {txn : Transaction} (ht : txn.canRead) (k : Nat) (w : World Mock)
    (hb : Bytes w.dev.rx) (hlen : w.dev.rx.length < 4) (h0 : startsAt w.dev.rx 0 = false) :
    (scanPreamble mockTransport txn (k + 1) w).1 ≠ Scan.found := by
  rw [scanPreamble]
  simp only
  by_cases h3 : w.dev.rx.length < 3
  · have hf := read_mock_short txn 3 w h3
    rw [if_pos (by rw [hf]; decide)]
    simp
  · obtain ⟨r1, r2, r3⟩ := read_mock ht 3 w (by omega) (hb.take 3)
    have hnil : (txn.read mockTransport 3 w).2.2.dev.rx.length < 1 := by
      rw [r3]
      simp
      omega
    have hf := read_mock_short txn 1 _ hnil
    obtain ⟨a, b, c, hrx⟩ : ∃ a b c, w.dev.rx = [a, b, c] := by
      match h : w.dev.rx, hlen, h3 with
      | [a, b, c], _, _ => exact ⟨a, b, c, rfl⟩
      | [], _, h3 => simp at h3
      | [_], _, h3 => simp at h3
      | [_, _], _, h3 => simp at h3
      | _ :: _ :: _ :: _ :: _, hl, _ => exact absurd hl (by simp)
    have i0 : isStart a b c = false := by simpa [startsAt, hrx, isStart] using h0
    rw [if_neg (by simp [r1]), r2, hrx]
    simp only [List.take_succ_cons, List.take_zero, List.getD_cons_zero, List.getD_cons_succ]
    rw [if_neg (by simp [i0]), if_pos (by rw [hf]; decide)]
    simp

/-- When the scan locks, it locks on the first window it looks at that holds the start
sequence. -/
theorem scan_found_inv {txn : Transaction} (ht : txn.canRead) :
    ∀ (fuel : Nat) (w : World Mock), Bytes w.dev.rx →
      (scanPreamble mockTransport txn fuel w).1 = Scan.found →
      ∃ q, q % 4 ≤ 1 ∧ q < 4 * fuel ∧ startsAt w.dev.rx q = true
        ∧ (∀ j, j < q → j % 4 ≤ 1 → startsAt w.dev.rx j = false)
        ∧ (scanPreamble mockTransport txn fuel w).2.dev.rx = w.dev.rx.drop (q + 3) := by
  intro fuel
  induction fuel with
  | zero =>
    intro w _ h
    simp [scanPreamble] at h
  | succ k ih =>
    intro w hb h
    cases s0 : startsAt w.dev.rx 0 with
    | true =>
      have L := scan_locks_examined ht 0 (by omega) 0 (k + 1) w (by omega) hb s0
        (by intro j hj; omega)
      exact ⟨0, by omega, by omega, s0, by intro j hj; omega, L.2⟩
    | false =>
      cases s1 : startsAt w.dev.rx 1 with
      | true =>
        have L := scan_locks_examined ht 1 (by omega) 0 (k + 1) w (by omega) hb s1
          (by
            intro j hj _
            have : j = 0 := by omega
            rw [this]
            exact s0)
        exact ⟨1, by omega, by omega, s1,
          by
            intro j hj _
            have : j = 0 := by omega
            rw [this]
            exact s0,
          L.2⟩
      | false =>
        by_cases hlen : 4 ≤ w.dev.rx.length
        · obtain ⟨e, hrx⟩ := scan_skip ht k w hb hlen s0 s1
          rw [e] at h ⊢
          obtain ⟨q, q1, q2, q3, q4, q5⟩ := ih _ (by rw [hrx]; exact hb.drop 4) h
          rw [hrx] at q3 q4 q5
          rw [startsAt_drop] at q3
          refine ⟨q + 4, by omega, by omega, q3, ?_, ?_⟩
          · intro j hj hm
            by_cases hj4 : j < 4
            · have : j = 0 ∨ j = 1 := by omega
              rcases this with rfl | rfl
              · exact s0
              · exact s1
            · have := q4 (j - 4) (by omega) (by omega)
              rw [startsAt_drop] at this
              rw [← this]
              congr 1
              omega
          · rw [q5, List.drop_drop]
            congr 1
            omega
        · exact absurd h (scan_short ht k w hb (by omega) s0)

theorem parseResponse_missing_world {σ : Type} (tp : Transport σ) (txn : Transaction)
    (buffer : List Nat) (w : World σ)
    (hs : (scanPreamble tp txn MAX_SCAN w).1 = Scan.missing) :
    parseResponse tp txn buffer w
      = (Status.INVALID_FRAME, buffer, (scanPreamble tp txn MAX_SCAN w).2) := by
  unfold parseResponse
  generalize scanPreamble tp txn MAX_SCAN w = r at hs
  obtain ⟨sc, w1⟩ := r
  simp only at hs
  subst hs
  rfl

/-- Claim C19. Over a stream `s` of bytes, the scan of `parseResponse` looks only at the
windows at offsets `4 i` and `4 i + 1`, `i < 10`: it locks on the smallest such offset `q`
whose window is `00 00 FF`, leaving `s` from offset `q + 3` on (where the length field is
read); if the stream has 40 bytes and none of these windows matches, `parseResponse`
returns `INVALID_FRAME` having consumed exactly 40 bytes. Hence a preamble whose first
occurrence is at offset `p` is found at `p` if and only if `p mod 4` is 0 or 1 and
`p ≤ 37`. -/
theorem C19_scan_behaviour (s buffer : List Nat) (hb : Bytes s) :
    (∀ q, q % 4 ≤ 1 → q ≤ 37 → startsAt s q = true →
        (∀ j, j < q → j % 4 ≤ 1 → startsAt s j = false) →
        scanStream s = (Scan.found, s.drop (q + 3)))
      ∧ (40 ≤ s.length → (∀ j, j < 40 → j % 4 ≤ 1 → startsAt s j = false) →
        decodeStream s buffer = (Status.INVALID_FRAME, buffer)
          ∧ (decodeEffect s buffer).2 = s.drop 40)
      ∧ (∀ p, startsAt s p = true → (∀ j, j < p → startsAt s j = false) →
        (scanStream s = (Scan.found, s.drop (p + 3)) ↔ (p % 4 ≤ 1 ∧ p ≤ 37))) := by
  have lock : ∀ q, q % 4 ≤ 1 → q ≤ 37 → startsAt s q = true →
      (∀ j, j < q → j % 4 ≤ 1 → startsAt s j = false) →
      scanStream s = (Scan.found, s.drop (q + 3)) := by
    intro q hq1 hq2 hs hfirst
    have hq4 : 4 * (q / 4) + q % 4 = q := by omega
    have L := scan_locks_examined canRead_readModeTxn (q % 4) hq1 (q / 4) MAX_SCAN
      { dev := Mock.stream s, trace := [] } (by unfold MAX_SCAN; omega) hb
      (by rw [hq4]; exact hs) (by rw [hq4]; exact hfirst)
    rw [hq4] at L
    unfold scanStream
    exact Prod.ext L.1 L.2
  refine ⟨lock, ?_, ?_⟩
  · intro hlen hno
    have M := scan_missing canRead_readModeTxn MAX_SCAN
      { dev := Mock.stream s, trace := [] } hb (by simpa [Mock.stream, MAX_SCAN] using hlen)
      (by intro j hj hm; exact hno j (by unfold MAX_SCAN at hj; omega) hm)
    have R := parseResponse_missing_world mockTransport readModeTxn buffer _ M.1
    unfold decodeStream decodeEffect
    simp only [R]
    exact ⟨trivial, M.2⟩
  · intro p hs hfirst
    constructor
    · intro hfound
      unfold scanStream at hfound
      simp only [Prod.mk.injEq] at hfound
      obtain ⟨q, q1, q2, q3, _, q5⟩ := scan_found_inv canRead_readModeTxn MAX_SCAN
        { dev := Mock.stream s, trace := [] } hb hfound.1
      have hp := startsAt_length hs
      have hq := startsAt_length q3
      have e : s.drop (p + 3) = s.drop (q + 3) := by
        rw [← hfound.2, q5]
        rfl
      have el := congrArg List.length e
      simp only [List.length_drop] at el
      simp only [Mock.stream] at hq
      unfold MAX_SCAN at q2
      have hpq : p = q := by omega
      subst hpq
      exact ⟨q1, by omega⟩
    · rintro ⟨h1, h2⟩
      exact lock p h1 h2 hs (fun j hj _ => hfirst j hj)

theorem C19_scan_behaviour_witness :
    scanStream ([9, 8, 7, 6, 5] ++ sampleFrame) = (Scan.found, [0x02, 0xFE, 0xD5, 0x03, 0x28, 0x00])
      ∧ decodeStream (List.replicate 40 0x55 ++ sampleFrame) []
        = (Status.INVALID_FRAME, [])
      ∧ (decodeEffect (List.replicate 40 0x55 ++ sampleFrame) []).2 = sampleFrame
      ∧ ¬ (scanStream ([1, 2] ++ sampleFrame)
        = (Scan.found, ([1, 2] ++ sampleFrame).drop (2 + 3))) := by
  refine ⟨?_, ?_, ?_, ?_⟩
  · exact (C19_scan_behaviour ([9, 8, 7, 6, 5] ++ sampleFrame) [] (by decide)).1 5
      (by decide) (by decide) (by decide) (by decide)
  · exact ((C19_scan_behaviour (List.replicate 40 0x55 ++ sampleFrame) [] (by decide)).2.1
      (by decide) (by decide)).1
  · exact ((C19_scan_behaviour (List.replicate 40 0x55 ++ sampleFrame) [] (by decide)).2.1
      (by decide) (by decide)).2
  · intro h
    have := ((C19_scan_behaviour ([1, 2] ++ sampleFrame) [] (by decide)).2.2 2
      (by decide) (by decide)).1 h
    exact absurd this (by decide)

/-! ## Moving guards -/

theorem release_cleared :
    Transaction.release { transport := none, valid := false, in_read_mode := false } = [] := rfl

theorem release_copy (g : Transaction) :
    ({ transport := g.transport, valid := g.valid, in_read_mode := g.in_read_mode }
      : Transaction) = g := by
  cases g
  rfl

theorem release_valid (g : Transaction) (t : Nat) (hv : g.valid = true)
    (ht : g.transport = some t) : g.release = [t] := by
  simp [Transaction.release, hv, ht]

theorem release_invalid (g : Transaction) (hv : g.valid = false) : g.release = [] := by
  simp [Transaction.release, hv]

theorem release_length_le (g : Transaction) : g.release.length ≤ 1 := by
  unfold Transaction.release
  split <;> simp

/-- The destructor makes its call exactly for the transports listed by `release`. -/
theorem destroy_release {σ : Type} (tp : Transport σ) (g : Transaction) (w : World σ) :
    (g.destroy tp w).trace = w.trace ++ g.release.map (fun _ => Call.endTransaction) := by
  obtain ⟨tr, v, m⟩ := g
  cases v <;> cases tr <;> simp [Transaction.destroy, Transaction.release, callEndTransaction]

theorem sum_map_set (f : Transaction → Nat) (d : Transaction) :
    ∀ (l : List Transaction) (i : Nat) (x : Transaction), i < l.length →
      ((l.set i x).map f).sum + f (l.getD i d) = (l.map f).sum + f x := by
  intro l
  induction l with
  | nil =>
    intro i x h
    simp at h
  | cons a t ih =>
    intro i x h
    cases i with
    | zero =>
      simp
      omega
    | succ i =>
      have := ih i x (by simpa using h)
      simp only [List.set_cons_succ, List.map_cons, List.sum_cons, List.getD_cons_succ]
      omega

theorem getD_mem (l : List Transaction) (i : Nat) (d : Transaction) (h : i < l.length) :
    l.getD i d ∈ l := by
  rw [List.getD_eq_getElem _ _ h]
  exact List.getElem_mem h

theorem getD_set_ne (l : List Transaction) (i j : Nat) (x d : Transaction) (h : i ≠ j) :
    (l.set i x).getD j d = l.getD j d := by
  simp only [List.getD_eq_getElem?_getD]
  rw [List.getElem?_set_ne h]

theorem getD_set_eq (l : List Transaction) (i : Nat) (x d : Transaction) (h : i < l.length) :
    (l.set i x).getD i d = x := by
  simp only [List.getD_eq_getElem?_getD]
  rw [List.getElem?_set_self (by simpa using h)]
  rfl

theorem foldl_release_length (l : List Transaction) :
    ∀ log : List Nat, (l.foldl (fun log g => log ++ g.release) log).length
      = log.length + (l.map (fun g => g.release.length)).sum := by
  induction l with
  | nil => intro log; simp
  | cons a t ih =>
    intro log
    simp only [List.foldl_cons, List.map_cons, List.sum_cons]
    rw [ih, List.length_append]
    omega

theorem foldl_release_mem (l : List Transaction) :
    ∀ (log : List Nat) (x : Nat), x ∈ l.foldl (fun log g => log ++ g.release) log →
      x ∈ log ∨ ∃ g ∈ l, x ∈ g.release := by
  induction l with
  | nil =>
    intro log x h
    exact Or.inl h
  | cons a t ih =>
    intro log x h
    simp only [List.foldl_cons] at h
    rcases ih _ x h with h1 | ⟨g, hg, hx⟩
    · rcases List.mem_append.1 h1 with h2 | h2
      · exact Or.inl h2
      · exact Or.inr ⟨a, List.mem_cons_self _ _, h2⟩
    · exact Or.inr ⟨g, List.mem_cons_of_mem _ hg, hx⟩

theorem moveConstruct_owner (t : Nat) (s : Guards) (src : Nat) (h : s.OneOwner t) :
    (s.moveConstruct src).OneOwner t := by
  unfold Guards.moveConstruct
  split
  · rename_i hsrc
    obtain ⟨h1, h2, h3⟩ := h
    have hsum := sum_map_set (fun g => g.release.length) Transaction.cleared s.slots src
      { transport := none, valid := false, in_read_mode := false } hsrc
    simp only [release_cleared, List.length_nil, Nat.add_zero] at hsum
    refine ⟨?_, h2, ?_⟩
    · simp only [Transaction.moveConstruct, release_copy, List.map_append, List.sum_append,
        List.map_cons, List.map_nil, List.sum_cons, List.sum_nil, Nat.add_zero, Guards.get]
      omega
    · intro g hg x hx
      simp only [Transaction.moveConstruct, release_copy] at hg
      rcases List.mem_append.1 hg with hg | hg
      · rcases List.mem_or_eq_of_mem_set hg with hg | hg
        · exact h3 g hg x hx
        · rw [hg, release_cleared] at hx
          simp at hx
      · rw [List.mem_singleton] at hg
        rw [hg] at hx
        exact h3 _ (getD_mem _ _ _ hsrc) x hx
  · exact h

theorem moveAssign_owner (t : Nat) (s : Guards) (dst src : Nat) (h : s.OneOwner t) :
    (s.moveAssign dst src).OneOwner t := by
  unfold Guards.moveAssign
  split
  · rename_i hr
    split
    · rename_i hne
      obtain ⟨h1, h2, h3⟩ := h
      have hsum1 := sum_map_set (fun g => g.release.length) Transaction.cleared s.slots dst
        (s.get src) hr.1
      have hsum2 := sum_map_set (fun g => g.release.length) Transaction.cleared
        (s.slots.set dst (s.get src)) src
        { transport := none, valid := false, in_read_mode := false } (by simpa using hr.2)
      rw [getD_set_ne _ _ _ _ _ hne] at hsum2
      simp only [release_cleared, List.length_nil, Nat.add_zero] at hsum2
      simp only [release_copy]
      refine ⟨?_, ?_, ?_⟩
      · simp only [List.length_append, Guards.get] at hsum1 hsum2 ⊢
        omega
      · intro x hx
        rcases List.mem_append.1 hx with hx | hx
        · exact h2 x hx
        · exact h3 _ (getD_mem _ _ _ hr.1) x hx
      · intro g hg x hx
        rcases List.mem_or_eq_of_mem_set hg with hg | hg
        · rcases List.mem_or_eq_of_mem_set hg with hg | hg
          · exact h3 g hg x hx
          · rw [hg] at hx
            exact h3 _ (getD_mem _ _ _ hr.2) x hx
        · rw [hg, release_cleared] at hx
          simp at hx
    · exact h
  · exact h

theorem run_owner (t : Nat) (ops : List MoveOp) :
    ∀ s : Guards, s.OneOwner t → (s.run ops).OneOwner t := by
  induction ops with
  | nil => intro s h; exact h
  | cons op ops ih =>
    intro s h
    simp only [Guards.run, List.foldl_cons]
    apply ih
    cases op with
    | construct src => exact moveConstruct_owner t s src h
    | assign dst src => exact moveAssign_owner t s dst src h

theorem destroyAll_owner (t : Nat) (s : Guards) (h : s.OneOwner t) : s.destroyAll = [t] := by
  obtain ⟨h1, h2, h3⟩ := h
  have hlen : s.destroyAll.length = 1 := by
    unfold Guards.destroyAll
    rw [foldl_release_length]
    exact h1
  have hmem : ∀ x ∈ s.destroyAll, x = t := by
    intro x hx
    rcases foldl_release_mem s.slots s.ended x hx with hx | ⟨g, hg, hx⟩
    · exact h2 x hx
    · exact h3 g hg x hx
  match hd : s.destroyAll, hlen with
  | [x], _ =>
    have := hmem x (by rw [hd]; simp)
    rw [this]

/-- Claim C18. Move construction gives the new guard the three fields of the source and
leaves the source as `(nullptr, false, false)`, whose destruction makes no transport call.
Move assignment from a different guard appends one `endTransaction` on the target's
transport when the target was valid and none otherwise, then the target holds the fields
of the source and the source is cleared; self-assignment changes nothing. For one valid
guard moved any number of times, the destructors of all guards together with the moves
call `endTransaction` exactly once. -/
theorem C18_move_semantics (g0 : Transaction) (t : Nat) (hv : g0.valid = true)
    (ht : g0.transport = some t) :
    (∀ other : Transaction,
        other.moveConstruct = (other, Transaction.cleared)
          ∧ ∀ (σ : Type) (tp : Transport σ) (w : World σ),
              (other.moveConstruct).2.destroy tp w = w)
      ∧ (∀ (s : Guards) (dst src : Nat), dst < s.slots.length → src < s.slots.length →
          dst ≠ src → ((s.get dst).valid = true → (s.get dst).transport.isSome = true) →
          (s.moveAssign dst src).ended
              = s.ended ++ (if (s.get dst).valid = true then (s.get dst).transport.toList
                            else [])
            ∧ (s.moveAssign dst src).get dst = s.get src
            ∧ (s.moveAssign dst src).get src = Transaction.cleared
            ∧ (∀ a, a ≠ dst → a ≠ src → (s.moveAssign dst src).get a = s.get a))
      ∧ (∀ (s : Guards) (a : Nat), s.moveAssign a a = s)
      ∧ (∀ ops : List MoveOp,
          (Guards.run { slots := [g0], ended := [] } ops).destroyAll = [t]) := by
  refine ⟨?_, ?_, ?_, ?_⟩
  · intro other
    refine ⟨?_, ?_⟩
    · simp [Transaction.moveConstruct, release_copy, Transaction.cleared]
    · intro σ tp w
      simp [Transaction.moveConstruct, Transaction.destroy]
  · intro s dst src hd hs hne hwf
    have hcond : dst < s.slots.length ∧ src < s.slots.length := ⟨hd, hs⟩
    unfold Guards.moveAssign
    rw [if_pos hcond, if_pos hne]
    simp only [release_copy]
    refine ⟨?_, ?_, ?_, ?_⟩
    · congr 1
      cases hvd : (s.get dst).valid with
      | false => simp [release_invalid _ hvd]
      | true =>
        have hsome := hwf hvd
        obtain ⟨t2, ht2⟩ := Option.isSome_iff_exists.1 hsome
        simp [release_valid _ t2 hvd ht2, ht2]
    · simp only [Guards.get]
      rw [getD_set_ne _ _ _ _ _ (Ne.symm hne), getD_set_eq _ _ _ _ hd]
    · simp only [Guards.get]
      rw [getD_set_eq _ _ _ _ (by simpa using hs)]
      rfl
    · intro a ha1 ha2
      simp only [Guards.get]
      rw [getD_set_ne _ _ _ _ _ (Ne.symm ha2), getD_set_ne _ _ _ _ _ (Ne.symm ha1)]
  · intro s a
    simp [Guards.moveAssign]
  · intro ops
    apply destroyAll_owner
    apply run_owner
    refine ⟨?_, ?_, ?_⟩
    · simp [release_valid g0 t hv ht]
    · intro x hx
      simp at hx
    · intro g hg x hx
      rw [List.mem_singleton] at hg
      rw [hg, release_valid g0 t hv ht] at hx
      simpa using hx

theorem C18_move_semantics_witness :
    (Guards.run { slots := [activeTxn], ended := [] }
        [MoveOp.construct 0, MoveOp.construct 1, MoveOp.assign 0 2, MoveOp.assign 0 0,
          MoveOp.assign 0 1]).destroyAll = [0] :=
  (C18_move_semantics activeTxn 0 (by decide) (by decide)).2.2.2
    [MoveOp.construct 0, MoveOp.construct 1, MoveOp.assign 0 2, MoveOp.assign 0 0,
      MoveOp.assign 0 1]

end pn532
